import Mathlib

/-
  Verification development for the Carboxygenator simulator core.

  Shallow embedding of the Python sources over the real numbers:
  Python floats are modelled as elements of ℝ, `math.exp` as `Real.exp`,
  `math.log10` as `Real.logb 10`, `math.pi` as `Real.pi`, and functions
  that raise `ValueError` as `Except String` values.  Sources embedded:
    - src/core/params.py  (SimulationInputs, validate_inputs)
    - src/core/model.py   (geometry, equilibrium, transfer primitives)
    - src/core/solver.py  (lumped and segmented single-pass solver, simulate)
    - src/ui/app.py       (_compute_two_stage_co2_outlet,
                           _compute_co2_stage_segment_profiles,
                           _estimate_time_to_target_do_source_vessel)
-/

namespace Carboxy

open Classical

noncomputable section

/-- Mirror of params.SimulationInputs (src/core/params.py, lines 6-42).
All float fields are reals; optional floats are Option ℝ. -/
structure SimulationInputs where
  y_o2 : ℝ
  y_n2 : ℝ
  p_total_kpa : ℝ
  temperature_c : ℝ
  volume_l : ℝ
  flow_ml_min : ℝ
  tube_id_mm : ℝ
  tube_od_mm : ℝ
  shell_id_mm : ℝ
  tube_length_cm : ℝ
  gas_flow_ml_min : ℝ
  kla_o2_s_inv : ℝ
  kla_n2_s_inv : ℝ
  c_o2_init_mmol_l : ℝ
  c_n2_init_mmol_l : ℝ
  t_end_s : ℝ
  dt_s : ℝ
  transfer_model : String
  tube_od_mm_override_mm : Option ℝ
  perm_o2_mmol_m_per_m2_s_kpa : Option ℝ
  perm_n2_mmol_m_per_m2_s_kpa : Option ℝ
  gas_liquid_model : String
  n_segments : ℕ
  total_hold_up_volume_ml : Option ℝ
  enable_co2_ph_stage : Bool
  ph_tube_length_cm : ℝ
  ph_gas_co2_percent : ℝ
  ph_gas_flow_ml_min : ℝ
  kla_co2_s_inv : ℝ
  co2_transfer_model : String
  perm_co2_mmol_m_per_m2_s_kpa : Option ℝ
  c_co2_init_mmol_l : ℝ
  hco3_mmol_l : ℝ
  pka_app : ℝ
  reverse_ph_do_flow : Bool

/-- Mirror of model.constant_solubility_model (model.py lines 11-23):
constant Henry coefficients, raising ValueError on unsupported species. -/
def constant_solubility_model (species : String) (temperature_c : ℝ) :
    Except String ℝ :=
  let _ := temperature_c
  if species = ("O2") then Except.ok 0.0128
  else if species = ("N2") then Except.ok 0.0061
  else if species = ("CO2") then Except.ok 0.0307
  else Except.error (("Unsupported species: ") ++ species)

/-- The value constant_solubility_model returns on the three supported
species (and junk 0 elsewhere, a branch the embedded solver never takes:
the Python solver only queries O2, N2 and CO2).  The solver defs below are
specialized to this constant model, the only implementation in the repo. -/
def constSol (species : String) : ℝ :=
  if species = ("O2") then 0.0128
  else if species = ("N2") then 0.0061
  else if species = ("CO2") then 0.0307
  else 0

/-- Mirror of model.compute_tube_volume_ml (model.py lines 43-47). -/
def compute_tube_volume_ml (tube_id_mm tube_length_cm : ℝ) : ℝ :=
  Real.pi * ((tube_id_mm / 10 / 2) ^ 2) * tube_length_cm

/-- Mirror of model.compute_residence_time_s (model.py lines 50-53). -/
def compute_residence_time_s (flow_ml_min tube_volume_ml : ℝ) : ℝ :=
  tube_volume_ml / flow_ml_min * 60

/-- Mirror of model.compute_annulus_volume_ml (model.py lines 56-61). -/
def compute_annulus_volume_ml (shell_id_mm tube_od_mm tube_length_cm : ℝ) : ℝ :=
  Real.pi * ((shell_id_mm / 10 / 2) ^ 2 - (tube_od_mm / 10 / 2) ^ 2) * tube_length_cm

/-- Mirror of model.compute_gas_o2_supply_rate_mmol_min (model.py lines 64-75). -/
def compute_gas_o2_supply_rate_mmol_min (gas_flow_ml_min y_o2 p_total_kpa temperature_c : ℝ) : ℝ :=
  gas_flow_ml_min / 1000 * y_o2 *
    (p_total_kpa / (8.314462618 * (temperature_c + 273.15)) * 1000)

/-- Mirror of model.compute_equilibrium_concentrations (model.py lines 26-40),
specialized to the constant solubility model. -/
def compute_equilibrium_concentrations (inp : SimulationInputs) : ℝ × ℝ :=
  (constSol ("O2") * (inp.y_o2 * inp.p_total_kpa),
   constSol ("N2") * (inp.y_n2 * inp.p_total_kpa))

/-- Mirror of model.compute_single_pass_outlet_concentration (model.py lines 78-86). -/
def compute_single_pass_outlet_concentration
    (c_in_mmol_l cstar_mmol_l kla_s_inv residence_time_s : ℝ) : ℝ :=
  cstar_mmol_l + (c_in_mmol_l - cstar_mmol_l) * Real.exp (-kla_s_inv * residence_time_s)

/-- Mirror of model.compute_two_stage_co2_outlet_concentration (model.py lines 89-111). -/
def compute_two_stage_co2_outlet_concentration
    (c_co2_in cstar_stage1 cstar_stage2 kla_co2 tau1 tau2 : ℝ) : ℝ × ℝ :=
  let c_after_stage1 := compute_single_pass_outlet_concentration c_co2_in cstar_stage1 kla_co2 tau1
  let c_after_stage2 := compute_single_pass_outlet_concentration c_after_stage1 cstar_stage2 kla_co2 tau2
  (c_after_stage1, c_after_stage2)

/-- Mirror of model.compute_bicarbonate_buffer_ph (model.py lines 114-125):
raises for non-positive bicarbonate, clamps non-positive CO2 to 1e-12,
log10 is `Real.logb 10`. -/
def compute_bicarbonate_buffer_ph (hco3_mmol_l c_co2_mmol_l pka_app : ℝ) :
    Except String ℝ :=
  if hco3_mmol_l ≤ 0 then
    Except.error ("hco3_mmol_l must be > 0 for bicarbonate pH calculation")
  else
    Except.ok (pka_app +
      Real.logb 10 (hco3_mmol_l / (if c_co2_mmol_l ≤ 0 then 1e-12 else c_co2_mmol_l)))

/-- Mirror of model.compute_effective_kla_from_permeability (model.py lines 128-157),
specialized to the constant solubility model.  The Python code raises when
tube_od ≤ tube_id or the permeability value is missing; those branches are
unreachable for validated permeability-mode inputs, and the missing-value
case is modelled by `Option.getD 0`. -/
def compute_effective_kla_from_permeability (species : String) (inp : SimulationInputs) : ℝ :=
  let tube_od_mm := inp.tube_od_mm_override_mm.getD inp.tube_od_mm
  let perm :=
    (if species = ("O2") then inp.perm_o2_mmol_m_per_m2_s_kpa
     else if species = ("N2") then inp.perm_n2_mmol_m_per_m2_s_kpa
     else inp.perm_co2_mmol_m_per_m2_s_kpa).getD 0
  let tube_id_m := inp.tube_id_mm / 1000
  let tube_od_m := tube_od_mm / 1000
  let tube_length_m := inp.tube_length_cm / 100
  let wall_thickness_m := (tube_od_m - tube_id_m) / 2
  let area_m2 := Real.pi * tube_od_m * tube_length_m
  let volume_m3 := compute_tube_volume_ml inp.tube_id_mm inp.tube_length_cm * 1e-6
  let solubility_mmol_per_m3_kpa := constSol species * 1000
  perm / wall_thickness_m * (area_m2 / volume_m3) / solubility_mmol_per_m3_kpa

/-- Mirror of params.validate_inputs (params.py lines 45-130): the list of
error messages collected, in source order.  Apostrophes inside Python
message literals are written with the escape \x27.  Python's
None/negative if-elif pairs for the permeability values are rendered as two
ifs with mutually exclusive conditions. -/
def validation_errors (inp : SimulationInputs) : List String :=
  (if ¬ (0 ≤ inp.y_o2 ∧ inp.y_o2 ≤ 1) then ["y_o2 must be between 0 and 1"] else []) ++
  (if ¬ (0 ≤ inp.y_n2 ∧ inp.y_n2 ≤ 1) then ["y_n2 must be between 0 and 1"] else []) ++
  (if |inp.y_o2 + inp.y_n2 - 1| > 1e-9 then
    ["y_o2 + y_n2 must equal 1 within tolerance 1e-9"] else []) ++
  (if inp.p_total_kpa ≤ 0 then ["p_total_kpa must be > 0"] else []) ++
  (if inp.volume_l ≤ 0 then ["volume_l must be > 0"] else []) ++
  (if inp.flow_ml_min ≤ 0 then ["flow_ml_min must be > 0"] else []) ++
  (if inp.tube_id_mm ≤ 0 then ["tube_id_mm must be > 0"] else []) ++
  (if inp.tube_od_mm ≤ inp.tube_id_mm then ["tube_od_mm must be greater than tube_id_mm"] else []) ++
  (if inp.shell_id_mm ≤ inp.tube_od_mm then ["shell_id_mm must be greater than tube_od_mm"] else []) ++
  (if inp.tube_length_cm ≤ 0 then ["tube_length_cm must be > 0"] else []) ++
  (if inp.gas_flow_ml_min ≤ 0 then ["gas_flow_ml_min must be > 0"] else []) ++
  (if ∃ v, inp.total_hold_up_volume_ml = some v ∧ v ≤ 0 then
    ["total_hold_up_volume_ml must be > 0 when provided"] else []) ++
  (if inp.t_end_s ≤ 0 then ["t_end_s must be > 0"] else []) ++
  (if inp.dt_s ≤ 0 then ["dt_s must be > 0"] else []) ++
  (if inp.dt_s > inp.t_end_s then ["dt_s must be <= t_end_s"] else []) ++
  (if inp.kla_o2_s_inv < 0 then ["kla_o2_s_inv must be >= 0"] else []) ++
  (if inp.kla_n2_s_inv < 0 then ["kla_n2_s_inv must be >= 0"] else []) ++
  (if inp.kla_co2_s_inv < 0 then ["kla_co2_s_inv must be >= 0"] else []) ++
  (if inp.c_o2_init_mmol_l < 0 then ["c_o2_init_mmol_l must be >= 0"] else []) ++
  (if inp.c_n2_init_mmol_l < 0 then ["c_n2_init_mmol_l must be >= 0"] else []) ++
  (if inp.c_co2_init_mmol_l < 0 then ["c_co2_init_mmol_l must be >= 0"] else []) ++
  (if inp.hco3_mmol_l ≤ 0 then ["hco3_mmol_l must be > 0"] else []) ++
  (if ¬ (0 ≤ inp.ph_gas_co2_percent ∧ inp.ph_gas_co2_percent ≤ 100) then
    ["ph_gas_co2_percent must be between 0 and 100"] else []) ++
  (if inp.ph_gas_flow_ml_min ≤ 0 then ["ph_gas_flow_ml_min must be > 0"] else []) ++
  (if inp.ph_tube_length_cm ≤ 0 then ["ph_tube_length_cm must be > 0"] else []) ++
  (if ¬ (inp.transfer_model = ("kla") ∨ inp.transfer_model = ("permeability")) then
    ["transfer_model must be either \x27kla\x27 or \x27permeability\x27"] else []) ++
  (if ¬ (inp.co2_transfer_model = ("kla") ∨ inp.co2_transfer_model = ("permeability")) then
    ["co2_transfer_model must be either \x27kla\x27 or \x27permeability\x27"] else []) ++
  (if ¬ (inp.gas_liquid_model = ("lumped") ∨ inp.gas_liquid_model = ("segmented")) then
    ["gas_liquid_model must be either \x27lumped\x27 or \x27segmented\x27"] else []) ++
  (if inp.gas_liquid_model = ("segmented") ∧ inp.n_segments < 2 then
    ["n_segments must be >= 2 when gas_liquid_model=\x27segmented\x27"] else []) ++
  (if inp.transfer_model = ("permeability") then
    (if ∃ v, inp.tube_od_mm_override_mm = some v ∧ v ≤ inp.tube_id_mm then
      ["tube_od_mm_override_mm must be greater than tube_id_mm in permeability mode"] else []) ++
    (if inp.perm_o2_mmol_m_per_m2_s_kpa = none then
      ["perm_o2_mmol_m_per_m2_s_kpa is required for permeability mode"] else []) ++
    (if ∃ v, inp.perm_o2_mmol_m_per_m2_s_kpa = some v ∧ v < 0 then
      ["perm_o2_mmol_m_per_m2_s_kpa must be >= 0"] else []) ++
    (if inp.perm_n2_mmol_m_per_m2_s_kpa = none then
      ["perm_n2_mmol_m_per_m2_s_kpa is required for permeability mode"] else []) ++
    (if ∃ v, inp.perm_n2_mmol_m_per_m2_s_kpa = some v ∧ v < 0 then
      ["perm_n2_mmol_m_per_m2_s_kpa must be >= 0"] else [])
   else []) ++
  (if inp.co2_transfer_model = ("permeability") then
    (if inp.perm_co2_mmol_m_per_m2_s_kpa = none then
      ["perm_co2_mmol_m_per_m2_s_kpa is required for co2_transfer_model=\x27permeability\x27"] else []) ++
    (if ∃ v, inp.perm_co2_mmol_m_per_m2_s_kpa = some v ∧ v < 0 then
      ["perm_co2_mmol_m_per_m2_s_kpa must be >= 0"] else [])
   else [])

/-- Mirror of params.validate_inputs: raises a single ValueError joining all
collected messages with a semicolon, or returns normally. -/
def validate_inputs (inp : SimulationInputs) : Except String Unit :=
  if validation_errors inp = [] then Except.ok ()
  else Except.error (String.intercalate ("; ") (validation_errors inp))

/-- An input record is valid when validate_inputs raises nothing. -/
def ValidInputs (inp : SimulationInputs) : Prop :=
  validation_errors inp = []

/-- The closed list of every message validate_inputs can emit, in source
order; validation_errors always produces a subset of this list. -/
def allValidationMsgs : List String :=
  ["y_o2 must be between 0 and 1",
   "y_n2 must be between 0 and 1",
   "y_o2 + y_n2 must equal 1 within tolerance 1e-9",
   "p_total_kpa must be > 0",
   "volume_l must be > 0",
   "flow_ml_min must be > 0",
   "tube_id_mm must be > 0",
   "tube_od_mm must be greater than tube_id_mm",
   "shell_id_mm must be greater than tube_od_mm",
   "tube_length_cm must be > 0",
   "gas_flow_ml_min must be > 0",
   "total_hold_up_volume_ml must be > 0 when provided",
   "t_end_s must be > 0",
   "dt_s must be > 0",
   "dt_s must be <= t_end_s",
   "kla_o2_s_inv must be >= 0",
   "kla_n2_s_inv must be >= 0",
   "kla_co2_s_inv must be >= 0",
   "c_o2_init_mmol_l must be >= 0",
   "c_n2_init_mmol_l must be >= 0",
   "c_co2_init_mmol_l must be >= 0",
   "hco3_mmol_l must be > 0",
   "ph_gas_co2_percent must be between 0 and 100",
   "ph_gas_flow_ml_min must be > 0",
   "ph_tube_length_cm must be > 0",
   "transfer_model must be either \x27kla\x27 or \x27permeability\x27",
   "co2_transfer_model must be either \x27kla\x27 or \x27permeability\x27",
   "gas_liquid_model must be either \x27lumped\x27 or \x27segmented\x27",
   "n_segments must be >= 2 when gas_liquid_model=\x27segmented\x27",
   "tube_od_mm_override_mm must be greater than tube_id_mm in permeability mode",
   "perm_o2_mmol_m_per_m2_s_kpa is required for permeability mode",
   "perm_o2_mmol_m_per_m2_s_kpa must be >= 0",
   "perm_n2_mmol_m_per_m2_s_kpa is required for permeability mode",
   "perm_n2_mmol_m_per_m2_s_kpa must be >= 0",
   "perm_co2_mmol_m_per_m2_s_kpa is required for co2_transfer_model=\x27permeability\x27",
   "perm_co2_mmol_m_per_m2_s_kpa must be >= 0"]

/-
  Segmented counterflow solver
  (solver._compute_segmented_outlet_concentrations, solver.py lines 21-114).
  Per-interface gas molar flows are modelled as functions ℕ → ℝ indexed
  left to right (index n = gas inlet boundary); values at indices above
  n_segments are never consulted by the Python arrays.
-/

/-- Local gas mole fraction of one species at an interface:
`max(0.0, min(1.0, g_self / max(g_self + g_other, 1e-15)))`
(solver.py lines 63-65). -/
def yLocal (gSelf gOther : ℝ) : ℝ :=
  max 0 (min 1 (gSelf / max (gSelf + gOther) 1e-15))

/-- Local equilibrium concentration `sol * y_local * P` (solver.py lines 67-68). -/
def cstarLocal (sol p gSelf gOther : ℝ) : ℝ :=
  sol * yLocal gSelf gOther * p

/-- Uncapped per-segment concentration change `(cstar_local - c) * a`
(solver.py lines 70-71). -/
def segDcRaw (sol p a c gSelf gOther : ℝ) : ℝ :=
  (cstarLocal sol p gSelf gOther - c) * a

/-- The per-segment gas-supply cap condition `seg_tr > gas_in`
(solver.py lines 75 and 79). -/
def segCapHit (sol p a q c gSelf gOther : ℝ) : Prop :=
  segDcRaw sol p a c gSelf gOther * q > gSelf

/-- Per-segment concentration change after the cap (solver.py lines 70-82). -/
def segDc (sol p a q c gSelf gOther : ℝ) : ℝ :=
  if segCapHit sol p a q c gSelf gOther then gSelf / max q 1e-15
  else segDcRaw sol p a c gSelf gOther

/-- Per-segment transferred molar amount after the cap (solver.py lines 72-85). -/
def segTrAmt (sol p a q c gSelf gOther : ℝ) : ℝ :=
  if segCapHit sol p a q c gSelf gOther then gSelf
  else segDcRaw sol p a c gSelf gOther * q

/-- Liquid concentration profile of one species along one left-to-right pass,
using the previous iteration's gas interface flows (solver.py lines 60-87):
index s is the value at boundary s, `liqProfile ... n_segments` the outlet. -/
def liqProfile (sol p a q cin : ℝ) (gSelf gOther : ℕ → ℝ) : ℕ → ℝ
  | 0 => cin
  | s + 1 =>
    liqProfile sol p a q cin gSelf gOther s +
      segDc sol p a q (liqProfile sol p a q cin gSelf gOther s) (gSelf (s + 1)) (gOther (s + 1))

/-- Transferred amount of one species in segment s during one pass. -/
def liqTransfer (sol p a q cin : ℝ) (gSelf gOther : ℕ → ℝ) (s : ℕ) : ℝ :=
  segTrAmt sol p a q (liqProfile sol p a q cin gSelf gOther s) (gSelf (s + 1)) (gOther (s + 1))

/-- Right-to-left gas flow rebuild, counted from the right boundary:
`gasDown inlet tr n k` is the updated flow at interface n - k
(solver.py lines 89-93). -/
def gasDown (inlet : ℝ) (tr : ℕ → ℝ) (n : ℕ) : ℕ → ℝ
  | 0 => inlet
  | k + 1 => max 0 (gasDown inlet tr n k - tr (n - (k + 1)))

/-- Updated gas interface flows indexed left to right (solver.py lines 89-93). -/
def gasUpdate (inlet : ℝ) (tr : ℕ → ℝ) (n : ℕ) : ℕ → ℝ :=
  fun s => gasDown inlet tr n (n - s)

/-- Gas-side state of the segmented fixed-point iteration: both interface
flow arrays plus the sticky transfer-limited flag (solver.py lines 44-46). -/
structure SegState where
  gO2 : ℕ → ℝ
  gN2 : ℕ → ℝ
  limited : Prop

/-- Ideal-gas molar concentration of the gas stream (solver.py lines 32-34). -/
def gasConcMmolL (inp : SimulationInputs) : ℝ :=
  inp.p_total_kpa / (8.314462618 * (inp.temperature_c + 273.15)) * 1000

/-- Total inlet gas molar flow (solver.py line 35). -/
def totalGasMmolMin (inp : SimulationInputs) : ℝ :=
  inp.gas_flow_ml_min / 1000 * gasConcMmolL inp

/-- Inlet O2 molar flow (solver.py line 36). -/
def nO2InletMmolMin (inp : SimulationInputs) : ℝ :=
  totalGasMmolMin inp * inp.y_o2

/-- Inlet N2 molar flow (solver.py line 37). -/
def nN2InletMmolMin (inp : SimulationInputs) : ℝ :=
  totalGasMmolMin inp * inp.y_n2

/-- Liquid flow in L/min (solver.py line 38). -/
def qLiqLMin (inp : SimulationInputs) : ℝ :=
  inp.flow_ml_min / 1000

/-- Tube liquid hold-up volume used by the solver (solver.py line 126). -/
def tubeVolumeMl (inp : SimulationInputs) : ℝ :=
  compute_tube_volume_ml inp.tube_id_mm inp.tube_length_cm

/-- Liquid residence time used by the solver (solver.py line 128). -/
def residenceTimeS (inp : SimulationInputs) : ℝ :=
  compute_residence_time_s inp.flow_ml_min (tubeVolumeMl inp)

/-- Effective O2 transfer rate: kLa field or permeability-derived
(solver.py lines 131-137). -/
def klaO2Eff (inp : SimulationInputs) : ℝ :=
  if inp.transfer_model = ("permeability") then
    compute_effective_kla_from_permeability ("O2") inp
  else inp.kla_o2_s_inv

/-- Effective N2 transfer rate (solver.py lines 131-137). -/
def klaN2Eff (inp : SimulationInputs) : ℝ :=
  if inp.transfer_model = ("permeability") then
    compute_effective_kla_from_permeability ("N2") inp
  else inp.kla_n2_s_inv

/-- Per-segment residence time `residence_time / n_segments` (solver.py line 39). -/
def dtSegS (inp : SimulationInputs) : ℝ :=
  residenceTimeS inp / inp.n_segments

/-- Per-segment O2 transfer factor `1 - exp(-kla*dt_seg)` (solver.py line 40). -/
def aO2 (inp : SimulationInputs) : ℝ :=
  1 - Real.exp (-klaO2Eff inp * dtSegS inp)

/-- Per-segment N2 transfer factor (solver.py line 41). -/
def aN2 (inp : SimulationInputs) : ℝ :=
  1 - Real.exp (-klaN2Eff inp * dtSegS inp)

/-- O2 liquid profile of one pass from gas state st. -/
def o2Pass (inp : SimulationInputs) (cO2in : ℝ) (st : SegState) : ℕ → ℝ :=
  liqProfile (constSol ("O2")) inp.p_total_kpa (aO2 inp) (qLiqLMin inp) cO2in st.gO2 st.gN2

/-- N2 liquid profile of one pass from gas state st. -/
def n2Pass (inp : SimulationInputs) (cN2in : ℝ) (st : SegState) : ℕ → ℝ :=
  liqProfile (constSol ("N2")) inp.p_total_kpa (aN2 inp) (qLiqLMin inp) cN2in st.gN2 st.gO2

/-- O2 transfer amounts of one pass from gas state st. -/
def o2PassTr (inp : SimulationInputs) (cO2in : ℝ) (st : SegState) : ℕ → ℝ :=
  liqTransfer (constSol ("O2")) inp.p_total_kpa (aO2 inp) (qLiqLMin inp) cO2in st.gO2 st.gN2

/-- N2 transfer amounts of one pass from gas state st. -/
def n2PassTr (inp : SimulationInputs) (cN2in : ℝ) (st : SegState) : ℕ → ℝ :=
  liqTransfer (constSol ("N2")) inp.p_total_kpa (aN2 inp) (qLiqLMin inp) cN2in st.gN2 st.gO2

/-- Whether a gas-supply cap engages for either species in some segment of
the pass run from state st (solver.py lines 75-82). -/
def passCapHit (inp : SimulationInputs) (cO2in cN2in : ℝ) (st : SegState) : Prop :=
  ∃ s, s < inp.n_segments ∧
    (segCapHit (constSol ("O2")) inp.p_total_kpa (aO2 inp) (qLiqLMin inp)
        (o2Pass inp cO2in st s) (st.gO2 (s + 1)) (st.gN2 (s + 1)) ∨
     segCapHit (constSol ("N2")) inp.p_total_kpa (aN2 inp) (qLiqLMin inp)
        (n2Pass inp cN2in st s) (st.gN2 (s + 1)) (st.gO2 (s + 1)))

/-- One full iteration of the fixed-point loop: run the liquid pass from
state st, then rebuild both gas interface arrays (solver.py lines 52-93). -/
def segNext (inp : SimulationInputs) (cO2in cN2in : ℝ) (st : SegState) : SegState :=
  { gO2 := gasUpdate (nO2InletMmolMin inp) (o2PassTr inp cO2in st) inp.n_segments
    gN2 := gasUpdate (nN2InletMmolMin inp) (n2PassTr inp cN2in st) inp.n_segments
    limited := st.limited ∨ passCapHit inp cO2in cN2in st }

/-- The loop's convergence test `diff < 1e-9` over both interface arrays
(solver.py lines 95-100). -/
def segConverged (inp : SimulationInputs) (old new : SegState) : Prop :=
  ∀ s ≤ inp.n_segments,
    |new.gO2 s - old.gO2 s| < 1e-9 ∧ |new.gN2 s - old.gN2 s| < 1e-9

/-- Initial gas state: every interface at the inlet flows (solver.py lines 44-46). -/
def segInit (inp : SimulationInputs) : SegState :=
  { gO2 := fun _ => nO2InletMmolMin inp
    gN2 := fun _ => nN2InletMmolMin inp
    limited := False }

/-- The bounded fixed-point loop (at most `fuel` iterations, breaking once
converged; solver.py lines 52-100).  Returns the pair (state at the start
of the last executed iteration, state after it): the Python function's
returned liquid profile is the last pass, computed from the former, while
the returned interface arrays are the latter. -/
def segLoop (inp : SimulationInputs) (cO2in cN2in : ℝ) : ℕ → SegState → SegState × SegState
  | 0, st => (st, st)
  | fuel + 1, st =>
    let st' := segNext inp cO2in cN2in st
    if fuel = 0 ∨ segConverged inp st st' then (st, st')
    else segLoop inp cO2in cN2in fuel st'

/-- The two states of interest after the 50-iteration loop (solver.py line 52). -/
def segResultStates (inp : SimulationInputs) (cO2in cN2in : ℝ) : SegState × SegState :=
  segLoop inp cO2in cN2in 50 (segInit inp)

/-- Segmented outlet O2 concentration `c_liq_o2[-1]` (solver.py line 114). -/
def segOutO2 (inp : SimulationInputs) (cO2in cN2in : ℝ) : ℝ :=
  o2Pass inp cO2in (segResultStates inp cO2in cN2in).1 inp.n_segments

/-- Segmented outlet N2 concentration `c_liq_n2[-1]` (solver.py line 114). -/
def segOutN2 (inp : SimulationInputs) (cO2in cN2in : ℝ) : ℝ :=
  n2Pass inp cN2in (segResultStates inp cO2in cN2in).1 inp.n_segments

/-- Segmented sticky transfer-limited flag (solver.py lines 46, 76, 80, 108). -/
def segLimited (inp : SimulationInputs) (cO2in cN2in : ℝ) : Prop :=
  (segResultStates inp cO2in cN2in).2.limited

/-- Reported axial gas O2 mole-fraction profile entry for segment s
(solver.py lines 103-106). -/
def segGasProfileYO2 (inp : SimulationInputs) (cO2in cN2in : ℝ) (s : ℕ) : ℝ :=
  let fin := (segResultStates inp cO2in cN2in).2
  fin.gO2 (s + 1) / max (fin.gO2 (s + 1) + fin.gN2 (s + 1)) 1e-15

/-- Reported outlet (leftmost) gas O2 mole fraction (solver.py lines 102, 109). -/
def segGasOutYO2 (inp : SimulationInputs) (cO2in cN2in : ℝ) : ℝ :=
  let fin := (segResultStates inp cO2in cN2in).2
  fin.gO2 0 / max (fin.gO2 0 + fin.gN2 0) 1e-15

/-
  Lumped branch and dispatch
  (solver.compute_single_pass_steady_outlet, solver.py lines 117-199).
-/

/-- Equilibrium O2 concentration (solver.py line 125). -/
def cstarO2 (inp : SimulationInputs) : ℝ :=
  (compute_equilibrium_concentrations inp).1

/-- Equilibrium N2 concentration (solver.py line 125). -/
def cstarN2 (inp : SimulationInputs) : ℝ :=
  (compute_equilibrium_concentrations inp).2

/-- O2 molar supply rate of the gas stream (solver.py lines 140-145). -/
def o2SupplyRate (inp : SimulationInputs) : ℝ :=
  compute_gas_o2_supply_rate_mmol_min inp.gas_flow_ml_min inp.y_o2
    inp.p_total_kpa inp.temperature_c

/-- Lumped-mode uncapped O2 outlet (solver.py lines 161-166). -/
def lumpedRawO2 (inp : SimulationInputs) (cO2in : ℝ) : ℝ :=
  compute_single_pass_outlet_concentration cO2in (cstarO2 inp) (klaO2Eff inp) (residenceTimeS inp)

/-- Lumped-mode N2 outlet, never capped (solver.py lines 167-172). -/
def lumpedOutN2 (inp : SimulationInputs) (cN2in : ℝ) : ℝ :=
  compute_single_pass_outlet_concentration cN2in (cstarN2 inp) (klaN2Eff inp) (residenceTimeS inp)

/-- Lumped-mode O2 gas-supply cap condition
`max(0, (out - in)*q) > supply` (solver.py lines 173-174). -/
def lumpedLimited (inp : SimulationInputs) (cO2in : ℝ) : Prop :=
  max 0 ((lumpedRawO2 inp cO2in - cO2in) * qLiqLMin inp) > o2SupplyRate inp

/-- Lumped-mode O2 outlet after the gas-supply cap (solver.py lines 173-177). -/
def lumpedOutO2 (inp : SimulationInputs) (cO2in : ℝ) : ℝ :=
  if lumpedLimited inp cO2in then
    cO2in + o2SupplyRate inp / max (qLiqLMin inp) 1e-15
  else lumpedRawO2 inp cO2in

/-- Outlet concentrations and the metadata fields the claims consult
(solver.py lines 179-197). -/
structure SteadyOutlet where
  out_o2 : ℝ
  out_n2 : ℝ
  o2_transfer_limited : Prop
  residence_time_s : ℝ

/-- Mirror of solver.compute_single_pass_steady_outlet (solver.py lines 117-199),
specialized to the constant solubility model. -/
def compute_single_pass_steady_outlet (inp : SimulationInputs) (cO2in cN2in : ℝ) :
    SteadyOutlet :=
  if inp.gas_liquid_model = ("segmented") then
    { out_o2 := segOutO2 inp cO2in cN2in
      out_n2 := segOutN2 inp cO2in cN2in
      o2_transfer_limited := segLimited inp cO2in cN2in
      residence_time_s := residenceTimeS inp }
  else
    { out_o2 := lumpedOutO2 inp cO2in
      out_n2 := lumpedOutN2 inp cN2in
      o2_transfer_limited := lumpedLimited inp cO2in
      residence_time_s := residenceTimeS inp }

/-
  Fixed-duration simulation (solver.simulate, solver.py lines 202-255).
-/

/-- Number of time samples `floor(t_end/dt) + 1` (solver.py line 214). -/
def simNSteps (inp : SimulationInputs) : ℕ :=
  (⌊inp.t_end_s / inp.dt_s⌋).toNat + 1

/-- O2 concentration sample at grid index i: the steady outlet, masked to
the initial value while `i*dt < residence_time` (solver.py lines 215-223). -/
def simSampleO2 (inp : SimulationInputs) (i : ℕ) : ℝ :=
  if (i : ℝ) * inp.dt_s < residenceTimeS inp then inp.c_o2_init_mmol_l
  else (compute_single_pass_steady_outlet inp inp.c_o2_init_mmol_l inp.c_n2_init_mmol_l).out_o2

/-- N2 concentration sample at grid index i (solver.py lines 215-223). -/
def simSampleN2 (inp : SimulationInputs) (i : ℕ) : ℝ :=
  if (i : ℝ) * inp.dt_s < residenceTimeS inp then inp.c_n2_init_mmol_l
  else (compute_single_pass_steady_outlet inp inp.c_o2_init_mmol_l inp.c_n2_init_mmol_l).out_n2

/-- Final O2 sample of simulate's time series. -/
def simFinalO2 (inp : SimulationInputs) : ℝ :=
  simSampleO2 inp (simNSteps inp - 1)

/-- Final N2 sample of simulate's time series. -/
def simFinalN2 (inp : SimulationInputs) : ℝ :=
  simSampleN2 inp (simNSteps inp - 1)

/-
  Two-stage CO2/pH conditioning
  (app._compute_two_stage_co2_outlet, app.py lines 511-578).
-/

/-- Effective CO2 transfer rate (app.py lines 514-518). -/
def klaCO2Eff (inp : SimulationInputs) : ℝ :=
  if inp.co2_transfer_model = ("permeability") then
    compute_effective_kla_from_permeability ("CO2") inp
  else inp.kla_co2_s_inv

/-- DO-stage (main tubing) residence time for the CO2 pathway (app.py lines 520-521). -/
def stage2TauS (inp : SimulationInputs) : ℝ :=
  compute_tube_volume_ml inp.tube_id_mm inp.tube_length_cm / max inp.flow_ml_min 1e-15 * 60

/-- pH-stage residence time (app.py lines 522-523). -/
def stage1TauS (inp : SimulationInputs) : ℝ :=
  compute_tube_volume_ml inp.tube_id_mm inp.ph_tube_length_cm / max inp.flow_ml_min 1e-15 * 60

/-- CO2 mole fraction of the pH-stage gas (app.py line 524). -/
def yCO2Stage1 (inp : SimulationInputs) : ℝ :=
  inp.ph_gas_co2_percent / 100

/-- pH-stage CO2 equilibrium concentration (app.py line 525). -/
def cstarStage1 (inp : SimulationInputs) : ℝ :=
  constSol ("CO2") * yCO2Stage1 inp * inp.p_total_kpa

/-- CO2 molar supply rate of the pH-stage gas stream (app.py lines 538-543). -/
def co2SupplyRate (inp : SimulationInputs) : ℝ :=
  compute_gas_o2_supply_rate_mmol_min inp.ph_gas_flow_ml_min (yCO2Stage1 inp)
    inp.p_total_kpa inp.temperature_c

/-- pH sub-stage: identity when disabled, else the single-pass formula
toward the stage-1 equilibrium followed by the CO2 gas-supply cap
(app.py lines 527-551). -/
def applyPhStage (inp : SimulationInputs) (cin : ℝ) : ℝ :=
  if inp.enable_co2_ph_stage then
    let cAfter := (compute_two_stage_co2_outlet_concentration cin (cstarStage1 inp)
      (cstarStage1 inp) (klaCO2Eff inp) (stage1TauS inp) 0).1
    if max 0 ((cAfter - cin) * (inp.flow_ml_min / 1000)) > co2SupplyRate inp then
      cin + co2SupplyRate inp / max (inp.flow_ml_min / 1000) 1e-15
    else cAfter
  else cin

/-- DO sub-stage: the main tubing strips dissolved CO2 toward a zero
equilibrium, no cap (app.py lines 553-563). -/
def applyDoStage (inp : SimulationInputs) (cin : ℝ) : ℝ :=
  (compute_two_stage_co2_outlet_concentration cin 0 0 (klaCO2Eff inp) 0 (stage2TauS inp)).2

/-- Final CO2 outlet in forward stage order, pH stage first (app.py lines 569-572). -/
def twoStageForwardFinal (inp : SimulationInputs) (cin : ℝ) : ℝ :=
  applyDoStage inp (applyPhStage inp cin)

/-- Final CO2 outlet in reverse stage order, DO stage first (app.py lines 565-568). -/
def twoStageReverseFinal (inp : SimulationInputs) (cin : ℝ) : ℝ :=
  applyPhStage inp (applyDoStage inp cin)

/-- Final CO2 outlet as selected by the stage-order flag (app.py lines 565-578). -/
def co2FinalOutlet (inp : SimulationInputs) (cin : ℝ) : ℝ :=
  if inp.reverse_ph_do_flow then twoStageReverseFinal inp cin
  else twoStageForwardFinal inp cin

/-
  CO2-stage segmented counterflow profiles
  (app._compute_co2_stage_segment_profiles, app.py lines 646-734).
  The non-CO2 carrier gas flow is propagated unchanged (app.py line 709),
  so its interface array stays at the inlet value.
-/

/-- Gas-side state of the CO2-stage fixed-point iteration. -/
structure Co2State where
  gCO2 : ℕ → ℝ
  limited : Prop

/-- Clamped segment count `max(2, n)` (app.py line 653). -/
def co2NSeg (n : ℕ) : ℕ := max 2 n

/-- CO2-stage residence time (app.py lines 654-655). -/
def co2StageTauS (inp : SimulationInputs) : ℝ :=
  compute_tube_volume_ml inp.tube_id_mm inp.ph_tube_length_cm / max inp.flow_ml_min 1e-15 * 60

/-- CO2-stage per-segment transfer factor (app.py lines 656-662). -/
def aCO2Stage (inp : SimulationInputs) (n : ℕ) : ℝ :=
  1 - Real.exp (-klaCO2Eff inp * (co2StageTauS inp / co2NSeg n))

/-- CO2-stage inlet CO2 molar flow (app.py lines 664-669). -/
def nCO2InletStage (inp : SimulationInputs) : ℝ :=
  inp.ph_gas_flow_ml_min / 1000 * gasConcMmolL inp * yCO2Stage1 inp

/-- CO2-stage inlet non-CO2 molar flow (app.py line 670). -/
def nOtherInletStage (inp : SimulationInputs) : ℝ :=
  inp.ph_gas_flow_ml_min / 1000 * gasConcMmolL inp * (1 - yCO2Stage1 inp)

/-- CO2 liquid profile of one pass from gas state st (app.py lines 686-703). -/
def co2Pass (inp : SimulationInputs) (cin : ℝ) (n : ℕ) (st : Co2State) : ℕ → ℝ :=
  liqProfile (constSol ("CO2")) inp.p_total_kpa (aCO2Stage inp n) (qLiqLMin inp) cin
    st.gCO2 (fun _ => nOtherInletStage inp)

/-- CO2 transfer amounts of one pass from gas state st (app.py lines 686-703). -/
def co2PassTr (inp : SimulationInputs) (cin : ℝ) (n : ℕ) (st : Co2State) : ℕ → ℝ :=
  liqTransfer (constSol ("CO2")) inp.p_total_kpa (aCO2Stage inp n) (qLiqLMin inp) cin
    st.gCO2 (fun _ => nOtherInletStage inp)

/-- Whether the CO2-stage cap engages in some segment of the pass run from
state st (app.py lines 697-700). -/
def co2PassCapHit (inp : SimulationInputs) (cin : ℝ) (n : ℕ) (st : Co2State) : Prop :=
  ∃ s, s < co2NSeg n ∧
    segCapHit (constSol ("CO2")) inp.p_total_kpa (aCO2Stage inp n) (qLiqLMin inp)
      (co2Pass inp cin n st s) (st.gCO2 (s + 1)) (nOtherInletStage inp)

/-- One full iteration of the CO2-stage loop (app.py lines 681-709). -/
def co2Next (inp : SimulationInputs) (cin : ℝ) (n : ℕ) (st : Co2State) : Co2State :=
  { gCO2 := gasUpdate (nCO2InletStage inp) (co2PassTr inp cin n st) (co2NSeg n)
    limited := st.limited ∨ co2PassCapHit inp cin n st }

/-- The CO2-stage convergence test (app.py lines 711-713). -/
def co2Converged (inp : SimulationInputs) (n : ℕ) (old new : Co2State) : Prop :=
  ∀ s ≤ co2NSeg n, |new.gCO2 s - old.gCO2 s| < 1e-9

/-- Initial CO2-stage gas state (app.py lines 675-680). -/
def co2Init (inp : SimulationInputs) : Co2State :=
  { gCO2 := fun _ => nCO2InletStage inp
    limited := False }

/-- The CO2-stage bounded fixed-point loop (app.py lines 681-713). -/
def co2Loop (inp : SimulationInputs) (cin : ℝ) (n : ℕ) : ℕ → Co2State → Co2State × Co2State
  | 0, st => (st, st)
  | fuel + 1, st =>
    let st' := co2Next inp cin n st
    if fuel = 0 ∨ co2Converged inp n st st' then (st, st')
    else co2Loop inp cin n fuel st'

/-- The two CO2-stage states of interest after the 50-iteration loop. -/
def co2ResultStates (inp : SimulationInputs) (cin : ℝ) (n : ℕ) : Co2State × Co2State :=
  co2Loop inp cin n 50 (co2Init inp)

/-- Local gas CO2 mole fraction used for the reported cstar profile entry of
segment s (app.py lines 715-719). -/
def co2ProfileYSeg (inp : SimulationInputs) (cin : ℝ) (n : ℕ) (s : ℕ) : ℝ :=
  let fin := (co2ResultStates inp cin n).2
  fin.gCO2 (s + 1) / max (fin.gCO2 (s + 1) + nOtherInletStage inp) 1e-15

/-- Reported cstar profile entry of segment s (app.py line 719). -/
def co2ProfileCstarSeg (inp : SimulationInputs) (cin : ℝ) (n : ℕ) (s : ℕ) : ℝ :=
  constSol ("CO2") * co2ProfileYSeg inp cin n s * inp.p_total_kpa

/-
  Time-to-target search
  (app._estimate_time_to_target_do_source_vessel, app.py lines 737-793).
-/

/-- Vessel turnover time in seconds `(V/Q)*60` (app.py line 757). -/
def estTauS (inp : SimulationInputs) : ℝ :=
  inp.volume_l / (inp.flow_ml_min / 1000) * 60

/-- Integration step `max(max_time/4000, min(30, max(1, tau/10)))`
(app.py lines 756-758). -/
def estDtS (inp : SimulationInputs) : ℝ :=
  max (8 * 3600 / 4000) (min 30 (max 1 (estTauS inp / 10)))

/-- Number of integration steps `int(max_time/dt)` (app.py line 759). -/
def estNSteps (inp : SimulationInputs) : ℕ :=
  (⌊(8 * 3600 : ℝ) / estDtS inp⌋).toNat

/-- Transport hold-up volume (app.py lines 761-765). -/
def transportVolumeMl (inp : SimulationInputs) : ℝ :=
  inp.total_hold_up_volume_ml.getD (tubeVolumeMl inp)

/-- Transport delay in seconds (app.py line 766). -/
def transportDelayS (inp : SimulationInputs) : ℝ :=
  transportVolumeMl inp / max inp.flow_ml_min 1e-12 * 60

/-- Delay expressed in steps, `max(0, int(round(delay/dt)))` (app.py line 767).
Python's round() rounds halves to even; this model rounds halves up, which
differs only when delay/dt is an exact half-integer. -/
def estDelaySteps (inp : SimulationInputs) : ℕ :=
  (⌊transportDelayS inp / estDtS inp + 1 / 2⌋).toNat

/-- Vessel state of the time-to-target Euler loop (app.py lines 768-786). -/
structure EstState where
  cO2 : ℝ
  cN2 : ℝ
  histO2 : List ℝ
  histN2 : List ℝ

/-- Percent-of-reference readout (app.py lines 751-793). -/
def estPct (ref c : ℝ) : ℝ :=
  c / max ref 1e-15 * 100

/-- One Euler step: run the single-pass solver from the current vessel
state, push the outlet, pop the delayed outlet, advance the vessel ODE
(app.py lines 771-786). -/
def estStepState (inp : SimulationInputs) (st : EstState) : EstState :=
  let out := compute_single_pass_steady_outlet inp st.cO2 st.cN2
  let h1 := st.histO2 ++ [out.out_o2]
  let h2 := st.histN2 ++ [out.out_n2]
  let d1 := h1.headD 0
  let d2 := h2.headD 0
  { cO2 := st.cO2 + qLiqLMin inp / inp.volume_l * (d1 - st.cO2) * (estDtS inp / 60)
    cN2 := st.cN2 + qLiqLMin inp / inp.volume_l * (d2 - st.cN2) * (estDtS inp / 60)
    histO2 := h1.tail
    histN2 := h2.tail }

/-- The stepping loop of the search: at step index k+1 the state is advanced
and the crossing test applied; crossing returns the current simulated time
(app.py lines 771-793). -/
def estRun (inp : SimulationInputs) (target ref : ℝ) (up : Prop) :
    ℕ → ℕ → EstState → Bool × Option ℝ × ℝ
  | 0, _, st => (false, none, estPct ref st.cO2)
  | fuel + 1, k, st =>
    let st' := estStepState inp st
    if (up ∧ target ≤ st'.cO2) ∨ (¬ up ∧ st'.cO2 ≤ target) then
      (true, some (((k + 1 : ℕ) : ℝ) * estDtS inp), estPct ref st'.cO2)
    else estRun inp target ref up fuel (k + 1) st'

/-- Mirror of app._estimate_time_to_target_do_source_vessel
(app.py lines 737-793): early exits, then the bounded Euler search. -/
def estimateTimeToTarget (inp : SimulationInputs) (target_do_percent do_ref : ℝ) :
    Bool × Option ℝ × ℝ :=
  let target := target_do_percent / 100 * do_ref
  let c0 := inp.c_o2_init_mmol_l
  if inp.volume_l ≤ 0 ∨ qLiqLMin inp ≤ 0 then (false, none, estPct do_ref c0)
  else if |c0 - target| ≤ 1e-9 then (true, some 0, estPct do_ref c0)
  else
    estRun inp target do_ref (c0 < target) (estNSteps inp) 0
      { cO2 := c0
        cN2 := inp.c_n2_init_mmol_l
        histO2 := List.replicate (estDelaySteps inp + 1) c0
        histN2 := List.replicate (estDelaySteps inp + 1) inp.c_n2_init_mmol_l }

/-
  Concrete input records used by witnesses and counterexamples.
-/

/-- A representative valid configuration: air at 1 atm and 25 C, 3.2 mm x
160 cm tubing, 10 mL/min liquid flow, kLa mode, lumped coupling. -/
def exBase : SimulationInputs :=
  { y_o2 := 0.21
    y_n2 := 0.79
    p_total_kpa := 101.325
    temperature_c := 25
    volume_l := 1
    flow_ml_min := 10
    tube_id_mm := 3.2
    tube_od_mm := 4
    shell_id_mm := 6
    tube_length_cm := 160
    gas_flow_ml_min := 30
    kla_o2_s_inv := 0.01
    kla_n2_s_inv := 0.008
    c_o2_init_mmol_l := 0
    c_n2_init_mmol_l := 0
    t_end_s := 600
    dt_s := 1
    transfer_model := ("kla")
    tube_od_mm_override_mm := none
    perm_o2_mmol_m_per_m2_s_kpa := none
    perm_n2_mmol_m_per_m2_s_kpa := none
    gas_liquid_model := ("lumped")
    n_segments := 40
    total_hold_up_volume_ml := none
    enable_co2_ph_stage := false
    ph_tube_length_cm := 16
    ph_gas_co2_percent := 5
    ph_gas_flow_ml_min := 20
    kla_co2_s_inv := 0.05
    co2_transfer_model := ("kla")
    perm_co2_mmol_m_per_m2_s_kpa := none
    c_co2_init_mmol_l := 1.2
    hco3_mmol_l := 24
    pka_app := 6.1
    reverse_ph_do_flow := false }

/-- The lumped O2 outlet exactly as claim C1 words it: unclamped required
rate and an unguarded division by the liquid flow.  Compared against the
code's lumpedOutO2, which clamps the required rate at zero and guards the
divisor with max(q, 1e-15). -/
def claimLumpedOutO2 (inp : SimulationInputs) (cO2in : ℝ) : ℝ :=
  if (lumpedRawO2 inp cO2in - cO2in) * qLiqLMin inp > o2SupplyRate inp then
    cO2in + o2SupplyRate inp / qLiqLMin inp
  else lumpedRawO2 inp cO2in

/-- exBase in segmented mode with inert N2 (kLa_N2 = 0). -/
def exSeg : SimulationInputs :=
  { exBase with
    gas_liquid_model := ("segmented")
    kla_n2_s_inv := 0
    n_segments := 3 }

/-- exBase with zero O2 transfer coefficient. -/
def exKla0 : SimulationInputs :=
  { exBase with kla_o2_s_inv := 0 }

/-- exBase with the CO2/pH conditioning stage enabled. -/
def exPh : SimulationInputs :=
  { exBase with enable_co2_ph_stage := true }

/-- exBase in segmented mode. -/
def exSegW : SimulationInputs :=
  { exBase with gas_liquid_model := ("segmented") }

/-- C1 counterexample input: validate_inputs never checks the temperature,
so -274.15 C (negative absolute temperature, hence a negative computed gas
supply rate) is accepted; pure O2 gas at 1 kPa, fast liquid flow, tiny gas
flow. -/
def ce1 : SimulationInputs :=
  { exBase with
    y_o2 := 1
    y_n2 := 0
    p_total_kpa := 1
    temperature_c := -274.15
    flow_ml_min := 1000
    gas_flow_ml_min := 1e-6 }

/-- C2 counterexample input: zero kLa_O2 with a negative-absolute-temperature
gas stream (so the lumped cap engages and moves the steady outlet away from
the inlet) and a horizon shorter than the residence time. -/
def ce2 : SimulationInputs :=
  { exBase with
    temperature_c := -274.15
    kla_o2_s_inv := 0
    flow_ml_min := 1
    gas_flow_ml_min := 1
    dt_s := 5
    t_end_s := 10
    c_o2_init_mmol_l := 0.25 }

/-- C3 counterexample input (segmented flavor): low gas flow (0.5 mL/min
against 10 mL/min liquid), desorbing O2 inlet, inert N2, 2 segments. -/
def ce3seg : SimulationInputs :=
  { exBase with
    p_total_kpa := 50
    gas_flow_ml_min := 0.5
    kla_o2_s_inv := 0.006
    kla_n2_s_inv := 0
    gas_liquid_model := ("segmented")
    n_segments := 2 }

/-- C3 counterexample input (lumped flavor): identical to ce3seg except for
the gas-liquid coupling selector. -/
def ce3lum : SimulationInputs :=
  { ce3seg with gas_liquid_model := ("lumped") }

/-- Invariant of the ce3seg counterexample loop: N2 interfaces pinned at the
inlet (N2 is inert there), the right-boundary O2 interface at the inlet, and
the middle O2 interface within [lo, inlet + 0.00185]. -/
def c3Inv (lo : ℝ) (st : SegState) : Prop :=
  (∀ s, st.gN2 s = nN2InletMmolMin ce3seg) ∧
  st.gO2 (1 + 1) = nO2InletMmolMin ce3seg ∧
  lo ≤ st.gO2 1 ∧ st.gO2 1 ≤ nO2InletMmolMin ce3seg + 0.00185

/-- Invariant of the inert-N2 absorbing domination argument: N2 interfaces
pinned at the inlet; O2 interface flows non-negative, bounded by the inlet
and monotone from the gas outlet (left) to the gas inlet (right). -/
def segDominated (inp : SimulationInputs) (st : SegState) : Prop :=
  (∀ s, st.gN2 s = nN2InletMmolMin inp) ∧
  (∀ s, 0 ≤ st.gO2 s) ∧
  (∀ s, st.gO2 s ≤ nO2InletMmolMin inp) ∧
  (∀ s t, s ≤ t → st.gO2 s ≤ st.gO2 t)

/-- C4 counterexample input: negative absolute temperature again, desorbing
O2 inlet. -/
def ce4 : SimulationInputs :=
  { exBase with
    p_total_kpa := 50
    temperature_c := -274.15
    gas_flow_ml_min := 1 }

/-- C5 counterexample input: zero kLa_O2, negative absolute temperature,
fast liquid flow so the delay mask clears after the first sample. -/
def ce5 : SimulationInputs :=
  { exBase with
    temperature_c := -274.15
    kla_o2_s_inv := 0
    flow_ml_min := 10000
    gas_flow_ml_min := 1
    dt_s := 1
    t_end_s := 10
    c_o2_init_mmol_l := 0.25 }

/-- C6 counterexample input: vessel turnover time of 10 s, so the claimed
clamp(1, tau/10, 30) equals 1 s while the code floors the step at 7.2 s. -/
def ce6 : SimulationInputs :=
  { exBase with
    volume_l := 0.5
    flow_ml_min := 3000 }

/-- C7 counterexample input: stage enabled with kla_co2 = 0, making both
stage orders the identity on dissolved CO2. -/
def ce7 : SimulationInputs :=
  { exBase with
    enable_co2_ph_stage := true
    kla_co2_s_inv := 0 }

/-- C10 counterexample input: segmented mode at negative absolute
temperature, so the inlet gas molar flows are negative and the reported
gas profile leaves [0, 1]. -/
def ce10 : SimulationInputs :=
  { exBase with
    temperature_c := -274.15
    gas_liquid_model := ("segmented")
    n_segments := 2 }

end

/-
  Helper lemmas: extraction of individual facts from ValidInputs.
-/

theorem exBase_valid : ValidInputs exBase := by
  unfold ValidInputs validation_errors exBase
  norm_num
  simp

theorem valid_y_o2_mem {inp : SimulationInputs} (h : ValidInputs inp) :
    0 ≤ inp.y_o2 ∧ inp.y_o2 ≤ 1 := by
  by_contra hc
  unfold ValidInputs validation_errors at h
  simp [hc] at h

theorem valid_y_n2_mem {inp : SimulationInputs} (h : ValidInputs inp) :
    0 ≤ inp.y_n2 ∧ inp.y_n2 ≤ 1 := by
  by_contra hc
  unfold ValidInputs validation_errors at h
  simp [hc] at h

theorem valid_p_pos {inp : SimulationInputs} (h : ValidInputs inp) :
    0 < inp.p_total_kpa := by
  by_contra hc
  push_neg at hc
  unfold ValidInputs validation_errors at h
  simp [hc] at h

theorem valid_volume_pos {inp : SimulationInputs} (h : ValidInputs inp) :
    0 < inp.volume_l := by
  by_contra hc
  push_neg at hc
  unfold ValidInputs validation_errors at h
  simp [hc] at h

theorem valid_flow_pos {inp : SimulationInputs} (h : ValidInputs inp) :
    0 < inp.flow_ml_min := by
  by_contra hc
  push_neg at hc
  unfold ValidInputs validation_errors at h
  simp [hc] at h

theorem valid_tube_id_pos {inp : SimulationInputs} (h : ValidInputs inp) :
    0 < inp.tube_id_mm := by
  by_contra hc
  push_neg at hc
  unfold ValidInputs validation_errors at h
  simp [hc] at h

theorem valid_od_gt_id {inp : SimulationInputs} (h : ValidInputs inp) :
    inp.tube_id_mm < inp.tube_od_mm := by
  by_contra hc
  push_neg at hc
  unfold ValidInputs validation_errors at h
  simp [hc] at h

theorem valid_len_pos {inp : SimulationInputs} (h : ValidInputs inp) :
    0 < inp.tube_length_cm := by
  by_contra hc
  push_neg at hc
  unfold ValidInputs validation_errors at h
  simp [hc] at h

theorem valid_gas_flow_pos {inp : SimulationInputs} (h : ValidInputs inp) :
    0 < inp.gas_flow_ml_min := by
  by_contra hc
  push_neg at hc
  unfold ValidInputs validation_errors at h
  simp [hc] at h

theorem valid_t_end_pos {inp : SimulationInputs} (h : ValidInputs inp) :
    0 < inp.t_end_s := by
  by_contra hc
  push_neg at hc
  unfold ValidInputs validation_errors at h
  simp [hc] at h

theorem valid_dt_pos {inp : SimulationInputs} (h : ValidInputs inp) :
    0 < inp.dt_s := by
  by_contra hc
  push_neg at hc
  unfold ValidInputs validation_errors at h
  simp [hc] at h

theorem valid_dt_le_t_end {inp : SimulationInputs} (h : ValidInputs inp) :
    inp.dt_s ≤ inp.t_end_s := by
  by_contra hc
  push_neg at hc
  unfold ValidInputs validation_errors at h
  simp [hc] at h

theorem valid_kla_o2_nonneg {inp : SimulationInputs} (h : ValidInputs inp) :
    0 ≤ inp.kla_o2_s_inv := by
  by_contra hc
  push_neg at hc
  unfold ValidInputs validation_errors at h
  simp [hc] at h

theorem valid_kla_n2_nonneg {inp : SimulationInputs} (h : ValidInputs inp) :
    0 ≤ inp.kla_n2_s_inv := by
  by_contra hc
  push_neg at hc
  unfold ValidInputs validation_errors at h
  simp [hc] at h

theorem valid_kla_co2_nonneg {inp : SimulationInputs} (h : ValidInputs inp) :
    0 ≤ inp.kla_co2_s_inv := by
  by_contra hc
  push_neg at hc
  unfold ValidInputs validation_errors at h
  simp [hc] at h

theorem valid_c_o2_init_nonneg {inp : SimulationInputs} (h : ValidInputs inp) :
    0 ≤ inp.c_o2_init_mmol_l := by
  by_contra hc
  push_neg at hc
  unfold ValidInputs validation_errors at h
  simp [hc] at h

theorem valid_c_co2_init_nonneg {inp : SimulationInputs} (h : ValidInputs inp) :
    0 ≤ inp.c_co2_init_mmol_l := by
  by_contra hc
  push_neg at hc
  unfold ValidInputs validation_errors at h
  simp [hc] at h

theorem valid_hco3_pos {inp : SimulationInputs} (h : ValidInputs inp) :
    0 < inp.hco3_mmol_l := by
  by_contra hc
  push_neg at hc
  unfold ValidInputs validation_errors at h
  simp [hc] at h

theorem valid_ph_pct_mem {inp : SimulationInputs} (h : ValidInputs inp) :
    0 ≤ inp.ph_gas_co2_percent ∧ inp.ph_gas_co2_percent ≤ 100 := by
  by_contra hc
  unfold ValidInputs validation_errors at h
  simp [hc] at h

theorem valid_ph_flow_pos {inp : SimulationInputs} (h : ValidInputs inp) :
    0 < inp.ph_gas_flow_ml_min := by
  by_contra hc
  push_neg at hc
  unfold ValidInputs validation_errors at h
  simp [hc] at h

theorem valid_ph_len_pos {inp : SimulationInputs} (h : ValidInputs inp) :
    0 < inp.ph_tube_length_cm := by
  by_contra hc
  push_neg at hc
  unfold ValidInputs validation_errors at h
  simp [hc] at h

theorem valid_transfer_model_mem {inp : SimulationInputs} (h : ValidInputs inp) :
    inp.transfer_model = ("kla") ∨ inp.transfer_model = ("permeability") := by
  by_contra hc
  unfold ValidInputs validation_errors at h
  simp [hc] at h

theorem valid_gl_model_mem {inp : SimulationInputs} (h : ValidInputs inp) :
    inp.gas_liquid_model = ("lumped") ∨ inp.gas_liquid_model = ("segmented") := by
  by_contra hc
  unfold ValidInputs validation_errors at h
  simp [hc] at h

theorem valid_nseg {inp : SimulationInputs} (h : ValidInputs inp)
    (hseg : inp.gas_liquid_model = ("segmented")) : 2 ≤ inp.n_segments := by
  by_contra hc
  push_neg at hc
  unfold ValidInputs validation_errors at h
  simp [hseg, hc] at h

theorem valid_perm_o2 {inp : SimulationInputs} (h : ValidInputs inp)
    (ht : inp.transfer_model = ("permeability")) :
    ∃ v, inp.perm_o2_mmol_m_per_m2_s_kpa = some v ∧ 0 ≤ v := by
  by_contra hc
  push_neg at hc
  cases hp : inp.perm_o2_mmol_m_per_m2_s_kpa with
  | none =>
    unfold ValidInputs validation_errors at h
    simp [ht, hp] at h
  | some v =>
    have hex : ∃ w, inp.perm_o2_mmol_m_per_m2_s_kpa = some w ∧ w < 0 := ⟨v, hp, hc v hp⟩
    unfold ValidInputs validation_errors at h
    simp [ht, hex] at h

theorem valid_perm_n2 {inp : SimulationInputs} (h : ValidInputs inp)
    (ht : inp.transfer_model = ("permeability")) :
    ∃ v, inp.perm_n2_mmol_m_per_m2_s_kpa = some v ∧ 0 ≤ v := by
  by_contra hc
  push_neg at hc
  cases hp : inp.perm_n2_mmol_m_per_m2_s_kpa with
  | none =>
    unfold ValidInputs validation_errors at h
    simp [ht, hp] at h
  | some v =>
    have hex : ∃ w, inp.perm_n2_mmol_m_per_m2_s_kpa = some w ∧ w < 0 := ⟨v, hp, hc v hp⟩
    unfold ValidInputs validation_errors at h
    simp [ht, hex] at h

theorem valid_perm_co2 {inp : SimulationInputs} (h : ValidInputs inp)
    (ht : inp.co2_transfer_model = ("permeability")) :
    ∃ v, inp.perm_co2_mmol_m_per_m2_s_kpa = some v ∧ 0 ≤ v := by
  by_contra hc
  push_neg at hc
  cases hp : inp.perm_co2_mmol_m_per_m2_s_kpa with
  | none =>
    unfold ValidInputs validation_errors at h
    simp [ht, hp] at h
  | some v =>
    have hex : ∃ w, inp.perm_co2_mmol_m_per_m2_s_kpa = some w ∧ w < 0 := ⟨v, hp, hc v hp⟩
    unfold ValidInputs validation_errors at h
    simp [ht, hex] at h

theorem valid_od_override {inp : SimulationInputs} (h : ValidInputs inp)
    (ht : inp.transfer_model = ("permeability")) :
    ∀ v, inp.tube_od_mm_override_mm = some v → inp.tube_id_mm < v := by
  intro v hv
  by_contra hc
  push_neg at hc
  have hex : ∃ w, inp.tube_od_mm_override_mm = some w ∧ w ≤ inp.tube_id_mm :=
    ⟨v, hv, hc⟩
  unfold ValidInputs validation_errors at h
  simp [ht, hex] at h

/-
  Derived sign and positivity facts about the solver quantities.
-/

theorem tube_volume_pos {d l : ℝ} (hd : 0 < d) (hl : 0 < l) :
    0 < compute_tube_volume_ml d l := by
  unfold compute_tube_volume_ml
  have := Real.pi_pos
  positivity

theorem residenceTimeS_pos {inp : SimulationInputs} (h : ValidInputs inp) :
    0 < residenceTimeS inp := by
  unfold residenceTimeS compute_residence_time_s tubeVolumeMl
  have hv := tube_volume_pos (valid_tube_id_pos h) (valid_len_pos h)
  have hf := valid_flow_pos h
  positivity

theorem qLiq_pos {inp : SimulationInputs} (h : ValidInputs inp) :
    0 < qLiqLMin inp := by
  unfold qLiqLMin
  have := valid_flow_pos h
  positivity

theorem effKla_nonneg {inp : SimulationInputs} (species : String)
    (hid : 0 < inp.tube_id_mm) (hlen : 0 < inp.tube_length_cm)
    (hperm : 0 ≤ (if species = ("O2") then inp.perm_o2_mmol_m_per_m2_s_kpa
      else if species = ("N2") then inp.perm_n2_mmol_m_per_m2_s_kpa
      else inp.perm_co2_mmol_m_per_m2_s_kpa).getD 0)
    (hod : inp.tube_id_mm < inp.tube_od_mm_override_mm.getD inp.tube_od_mm) :
    0 ≤ compute_effective_kla_from_permeability species inp := by
  unfold compute_effective_kla_from_permeability
  dsimp only
  have hwall : 0 < (inp.tube_od_mm_override_mm.getD inp.tube_od_mm / 1000 -
      inp.tube_id_mm / 1000) / 2 := by
    have : inp.tube_id_mm / 1000 < inp.tube_od_mm_override_mm.getD inp.tube_od_mm / 1000 := by
      linarith
    linarith
  have hodp : 0 < inp.tube_od_mm_override_mm.getD inp.tube_od_mm := lt_trans hid hod
  have harea : 0 < Real.pi * (inp.tube_od_mm_override_mm.getD inp.tube_od_mm / 1000) *
      (inp.tube_length_cm / 100) := by
    have := Real.pi_pos
    positivity
  have hvol : 0 < compute_tube_volume_ml inp.tube_id_mm inp.tube_length_cm * 1e-6 := by
    have := tube_volume_pos hid hlen
    positivity
  have hsol : 0 ≤ constSol species * 1000 := by
    unfold constSol
    split <;> norm_num
    split <;> norm_num
    split <;> norm_num
  exact div_nonneg (mul_nonneg (div_nonneg hperm hwall.le) (div_nonneg harea.le hvol.le)) hsol

theorem klaO2Eff_nonneg {inp : SimulationInputs} (h : ValidInputs inp) :
    0 ≤ klaO2Eff inp := by
  unfold klaO2Eff
  split
  case isTrue ht =>
    obtain ⟨v, hp, hv⟩ := valid_perm_o2 h ht
    refine effKla_nonneg ("O2") (valid_tube_id_pos h) (valid_len_pos h) ?_ ?_
    · simp [hp, hv]
    · cases ho : inp.tube_od_mm_override_mm with
      | none => simpa [ho] using valid_od_gt_id h
      | some w => simpa [ho] using valid_od_override h ht w ho
  case isFalse ht => exact valid_kla_o2_nonneg h

theorem klaN2Eff_nonneg {inp : SimulationInputs} (h : ValidInputs inp) :
    0 ≤ klaN2Eff inp := by
  unfold klaN2Eff
  split
  case isTrue ht =>
    obtain ⟨v, hp, hv⟩ := valid_perm_n2 h ht
    refine effKla_nonneg ("N2") (valid_tube_id_pos h) (valid_len_pos h) ?_ ?_
    · simp [hp, hv]
    · cases ho : inp.tube_od_mm_override_mm with
      | none => simpa [ho] using valid_od_gt_id h
      | some w => simpa [ho] using valid_od_override h ht w ho
  case isFalse ht => exact valid_kla_n2_nonneg h

theorem cstarO2_nonneg {inp : SimulationInputs} (h : ValidInputs inp) :
    0 ≤ cstarO2 inp := by
  unfold cstarO2 compute_equilibrium_concentrations constSol
  have hy := (valid_y_o2_mem h).1
  have hp := (valid_p_pos h).le
  simp only
  norm_num
  positivity

theorem cstarN2_nonneg {inp : SimulationInputs} (h : ValidInputs inp) :
    0 ≤ cstarN2 inp := by
  unfold cstarN2 compute_equilibrium_concentrations constSol
  have hy := (valid_y_n2_mem h).1
  have hp := (valid_p_pos h).le
  simp only
  norm_num
  positivity

theorem o2SupplyRate_nonneg {inp : SimulationInputs} (h : ValidInputs inp)
    (hT : 0 < inp.temperature_c + 273.15) : 0 ≤ o2SupplyRate inp := by
  unfold o2SupplyRate compute_gas_o2_supply_rate_mmol_min
  have hg := valid_gas_flow_pos h
  have hy := (valid_y_o2_mem h).1
  have hp := valid_p_pos h
  positivity

/-
  Claim C9: the bicarbonate-buffer pH computation.
-/

/-- C9 counterexample: at HCO3 = 24 and CO2 = 1e-13 (positive but below the
floor) the code divides by the CO2 value itself, not by max(CO2, 1e-12) as
the claim states; the two results differ by exactly one pH unit. -/
theorem C9_counterexample :
    compute_bicarbonate_buffer_ph 24 1e-13 6.1 ≠
      Except.ok (6.1 + Real.logb 10 (24 / max 1e-13 1e-12)) := by
  unfold compute_bicarbonate_buffer_ph
  rw [if_neg (by norm_num), if_neg (by norm_num)]
  rw [max_eq_right (by norm_num)]
  intro hEq
  have h2 : (6.1 : ℝ) + Real.logb 10 (24 / 1e-13) = 6.1 + Real.logb 10 (24 / 1e-12) := by
    exact Except.ok.inj hEq
  have h3 : Real.logb 10 (24 / 1e-13) = Real.logb 10 (24 / 1e-12) := by linarith
  have h4 : Real.logb 10 (24 / 1e-12) < Real.logb 10 (24 / 1e-13) :=
    Real.logb_lt_logb (by norm_num) (by norm_num) (by norm_num)
  linarith

/-- C9 (amended): compute_bicarbonate_buffer_ph raises an error iff the
bicarbonate concentration is ≤ 0; otherwise it returns
pKa_app + log10(HCO3 / CO2floored), where the 1e-12 floor replaces the CO2
value only when the CO2 value is ≤ 0 (so the claimed max(CO2, 1e-12) form is
correct for CO2 ≤ 0 and for CO2 ≥ 1e-12, but not on (0, 1e-12)). -/
theorem C9_ph_amended (hco3 co2 pka : ℝ) :
    ((∃ e, compute_bicarbonate_buffer_ph hco3 co2 pka = Except.error e) ↔ hco3 ≤ 0) ∧
    (0 < hco3 → co2 ≤ 0 →
      compute_bicarbonate_buffer_ph hco3 co2 pka =
        Except.ok (pka + Real.logb 10 (hco3 / 1e-12))) ∧
    (0 < hco3 → 0 < co2 →
      compute_bicarbonate_buffer_ph hco3 co2 pka =
        Except.ok (pka + Real.logb 10 (hco3 / co2))) ∧
    (0 < hco3 → 1e-12 ≤ co2 →
      compute_bicarbonate_buffer_ph hco3 co2 pka =
        Except.ok (pka + Real.logb 10 (hco3 / max co2 1e-12))) := by
  unfold compute_bicarbonate_buffer_ph
  refine ⟨?_, ?_, ?_, ?_⟩
  · constructor
    · rintro ⟨e, he⟩
      by_contra hc
      push_neg at hc
      rw [if_neg (by linarith)] at he
      exact Except.noConfusion he
    · intro hle
      exact ⟨_, if_pos hle⟩
  · intro h1 h2
    rw [if_neg (by linarith), if_pos h2]
  · intro h1 h2
    rw [if_neg (by linarith), if_neg (by linarith)]
  · intro h1 h2
    rw [if_neg (by linarith), if_neg (by linarith), max_eq_left h2]

/-- C9 witness: the amended theorem applied at concrete inputs. -/
theorem C9_ph_amended_witness :
    compute_bicarbonate_buffer_ph 24 (-1) 6.1 =
      Except.ok (6.1 + Real.logb 10 (24 / 1e-12)) :=
  (C9_ph_amended 24 (-1) 6.1).2.1 (by norm_num) (by norm_num)

/-
  Claim C6: the time-to-target search's horizon and step size.
-/

theorem estDtS_ge {inp : SimulationInputs} : (7.2 : ℝ) ≤ estDtS inp := by
  unfold estDtS
  have : (8 * 3600 / 4000 : ℝ) = 7.2 := by norm_num
  rw [this]
  exact le_max_left _ _

theorem estRun_time_le (inp : SimulationInputs) (target ref : ℝ) (up : Prop)
    (fuel k : ℕ) (st : EstState) :
    ((estRun inp target ref up fuel k st).2.1.getD 0) ≤ ((k + fuel : ℕ) : ℝ) * estDtS inp := by
  induction fuel generalizing k st with
  | zero =>
    have hdt : (0 : ℝ) < estDtS inp := lt_of_lt_of_le (by norm_num) estDtS_ge
    simp only [estRun, Option.getD_none]
    positivity
  | succ fuel ih =>
    have hdt : (0 : ℝ) < estDtS inp := lt_of_lt_of_le (by norm_num) estDtS_ge
    rw [estRun]
    split
    · simp only [Option.getD_some]
      have hk : ((k + 1 : ℕ) : ℝ) ≤ ((k + (fuel + 1) : ℕ) : ℝ) := by
        push_cast
        linarith [Nat.cast_nonneg (α := ℝ) fuel]
      exact mul_le_mul_of_nonneg_right hk hdt.le
    · have := ih (k + 1) (estStepState inp st)
      calc ((estRun inp target ref up fuel (k + 1) (estStepState inp st)).2.1.getD 0)
          ≤ (((k + 1) + fuel : ℕ) : ℝ) * estDtS inp := this
        _ = ((k + (fuel + 1) : ℕ) : ℝ) * estDtS inp := by push_cast; ring

theorem estNSteps_mul_le (inp : SimulationInputs) :
    ((estNSteps inp : ℕ) : ℝ) * estDtS inp ≤ 28800 := by
  have hdt : (0 : ℝ) < estDtS inp := lt_of_lt_of_le (by norm_num) estDtS_ge
  unfold estNSteps
  have hx : (0 : ℝ) ≤ (8 * 3600 : ℝ) / estDtS inp := by positivity
  have hfl : (0 : ℤ) ≤ ⌊(8 * 3600 : ℝ) / estDtS inp⌋ := Int.floor_nonneg.mpr hx
  have hcast : ((⌊(8 * 3600 : ℝ) / estDtS inp⌋.toNat : ℕ) : ℝ) =
      ((⌊(8 * 3600 : ℝ) / estDtS inp⌋ : ℤ) : ℝ) := by
    exact_mod_cast Int.toNat_of_nonneg hfl
  rw [hcast]
  have hle : ((⌊(8 * 3600 : ℝ) / estDtS inp⌋ : ℤ) : ℝ) ≤ (8 * 3600 : ℝ) / estDtS inp :=
    Int.floor_le _
  calc ((⌊(8 * 3600 : ℝ) / estDtS inp⌋ : ℤ) : ℝ) * estDtS inp
      ≤ (8 * 3600 : ℝ) / estDtS inp * estDtS inp :=
        mul_le_mul_of_nonneg_right hle hdt.le
    _ = (8 * 3600 : ℝ) := div_mul_cancel₀ _ hdt.ne.symm
    _ ≤ 28800 := by norm_num

/-- C6 (amended): for every input, the time-to-target search uses the
integration step max(7.2 s, clamp(1 s, tau/10, 30 s)) — the code additionally
floors the step at max_time/4000 = 7.2 s, contrary to the claim's "no other
adjustment" — its step grid never exceeds the 8-hour cap, and any returned
time-to-target is at most 8 hours (28800 s). -/
theorem C6_time_step_amended (inp : SimulationInputs) (target_do_percent do_ref : ℝ) :
    estDtS inp = max 7.2 (min 30 (max 1 (estTauS inp / 10))) ∧
    ((estNSteps inp : ℕ) : ℝ) * estDtS inp ≤ 28800 ∧
    ((estimateTimeToTarget inp target_do_percent do_ref).2.1.getD 0) ≤ 28800 := by
  refine ⟨?_, estNSteps_mul_le inp, ?_⟩
  · unfold estDtS
    norm_num
  · unfold estimateTimeToTarget
    split
    · simp
    · dsimp only
      split
      · simp
      · calc ((estRun inp _ do_ref _ (estNSteps inp) 0 _).2.1.getD 0)
            ≤ ((0 + estNSteps inp : ℕ) : ℝ) * estDtS inp := estRun_time_le _ _ _ _ _ _ _
          _ = ((estNSteps inp : ℕ) : ℝ) * estDtS inp := by norm_num
          _ ≤ 28800 := estNSteps_mul_le inp

/-
  Claim C8: validation aggregation and the solubility-model error.
-/

@[simp]
theorem mem_ite_nil {α : Type} {c : Prop} [Decidable c] {l : List α} {a : α} :
    (a ∈ (if c then l else [])) ↔ c ∧ a ∈ l := by
  split <;> simp_all

theorem ite_subset_of {c : Prop} [Decidable c] {l1 l2 L : List String}
    (h1 : l1 ⊆ L) (h2 : l2 ⊆ L) : (if c then l1 else l2) ⊆ L := by
  split <;> assumption

theorem validation_errors_subset (inp : SimulationInputs) :
    validation_errors inp ⊆ allValidationMsgs := by
  unfold validation_errors
  repeat' first
    | (refine List.append_subset.mpr ⟨?_, ?_⟩)
    | (apply ite_subset_of)
  all_goals unfold allValidationMsgs
  all_goals decide

theorem allMsgs_head : ∀ m ∈ allValidationMsgs, m.data.head? ≠ some ('U') := by
  decide

set_option maxHeartbeats 3200000 in
/-- C8: validate_inputs evaluates every configuration condition (no
short-circuiting): each condition's message appears in the collected list
exactly when that condition is violated, independently of the others; when
at least one is violated a single error carrying the semicolon-join of all
collected messages is raised, otherwise validation succeeds; and the
solubility model's unsupported-species error is a distinct error that never
occurs among the aggregated configuration messages. -/
theorem C8_validation_spec (inp : SimulationInputs) (sp : String) (t : ℝ) :
    (validate_inputs inp = Except.ok () ↔ validation_errors inp = []) ∧
    (validate_inputs inp =
        Except.error (String.intercalate ("; ") (validation_errors inp)) ↔
      validation_errors inp ≠ []) ∧
    (("y_o2 must be between 0 and 1") ∈ validation_errors inp ↔
      ¬ (0 ≤ inp.y_o2 ∧ inp.y_o2 ≤ 1)) ∧
    (("y_n2 must be between 0 and 1") ∈ validation_errors inp ↔
      ¬ (0 ≤ inp.y_n2 ∧ inp.y_n2 ≤ 1)) ∧
    (("y_o2 + y_n2 must equal 1 within tolerance 1e-9") ∈ validation_errors inp ↔
      |inp.y_o2 + inp.y_n2 - 1| > 1e-9) ∧
    (("p_total_kpa must be > 0") ∈ validation_errors inp ↔ inp.p_total_kpa ≤ 0) ∧
    (("volume_l must be > 0") ∈ validation_errors inp ↔ inp.volume_l ≤ 0) ∧
    (("flow_ml_min must be > 0") ∈ validation_errors inp ↔ inp.flow_ml_min ≤ 0) ∧
    (("tube_id_mm must be > 0") ∈ validation_errors inp ↔ inp.tube_id_mm ≤ 0) ∧
    (("tube_od_mm must be greater than tube_id_mm") ∈ validation_errors inp ↔
      inp.tube_od_mm ≤ inp.tube_id_mm) ∧
    (("shell_id_mm must be greater than tube_od_mm") ∈ validation_errors inp ↔
      inp.shell_id_mm ≤ inp.tube_od_mm) ∧
    (("tube_length_cm must be > 0") ∈ validation_errors inp ↔ inp.tube_length_cm ≤ 0) ∧
    (("gas_flow_ml_min must be > 0") ∈ validation_errors inp ↔ inp.gas_flow_ml_min ≤ 0) ∧
    (("total_hold_up_volume_ml must be > 0 when provided") ∈ validation_errors inp ↔
      ∃ v, inp.total_hold_up_volume_ml = some v ∧ v ≤ 0) ∧
    (("t_end_s must be > 0") ∈ validation_errors inp ↔ inp.t_end_s ≤ 0) ∧
    (("dt_s must be > 0") ∈ validation_errors inp ↔ inp.dt_s ≤ 0) ∧
    (("dt_s must be <= t_end_s") ∈ validation_errors inp ↔ inp.dt_s > inp.t_end_s) ∧
    (("kla_o2_s_inv must be >= 0") ∈ validation_errors inp ↔ inp.kla_o2_s_inv < 0) ∧
    (("kla_n2_s_inv must be >= 0") ∈ validation_errors inp ↔ inp.kla_n2_s_inv < 0) ∧
    (("kla_co2_s_inv must be >= 0") ∈ validation_errors inp ↔ inp.kla_co2_s_inv < 0) ∧
    (("c_o2_init_mmol_l must be >= 0") ∈ validation_errors inp ↔ inp.c_o2_init_mmol_l < 0) ∧
    (("c_n2_init_mmol_l must be >= 0") ∈ validation_errors inp ↔ inp.c_n2_init_mmol_l < 0) ∧
    (("c_co2_init_mmol_l must be >= 0") ∈ validation_errors inp ↔ inp.c_co2_init_mmol_l < 0) ∧
    (("hco3_mmol_l must be > 0") ∈ validation_errors inp ↔ inp.hco3_mmol_l ≤ 0) ∧
    (("ph_gas_co2_percent must be between 0 and 100") ∈ validation_errors inp ↔
      ¬ (0 ≤ inp.ph_gas_co2_percent ∧ inp.ph_gas_co2_percent ≤ 100)) ∧
    (("ph_gas_flow_ml_min must be > 0") ∈ validation_errors inp ↔
      inp.ph_gas_flow_ml_min ≤ 0) ∧
    (("ph_tube_length_cm must be > 0") ∈ validation_errors inp ↔
      inp.ph_tube_length_cm ≤ 0) ∧
    (("transfer_model must be either \x27kla\x27 or \x27permeability\x27") ∈
        validation_errors inp ↔
      ¬ (inp.transfer_model = ("kla") ∨ inp.transfer_model = ("permeability"))) ∧
    (("co2_transfer_model must be either \x27kla\x27 or \x27permeability\x27") ∈
        validation_errors inp ↔
      ¬ (inp.co2_transfer_model = ("kla") ∨ inp.co2_transfer_model = ("permeability"))) ∧
    (("gas_liquid_model must be either \x27lumped\x27 or \x27segmented\x27") ∈
        validation_errors inp ↔
      ¬ (inp.gas_liquid_model = ("lumped") ∨ inp.gas_liquid_model = ("segmented"))) ∧
    (("n_segments must be >= 2 when gas_liquid_model=\x27segmented\x27") ∈
        validation_errors inp ↔
      inp.gas_liquid_model = ("segmented") ∧ inp.n_segments < 2) ∧
    (("tube_od_mm_override_mm must be greater than tube_id_mm in permeability mode") ∈
        validation_errors inp ↔
      inp.transfer_model = ("permeability") ∧
        ∃ v, inp.tube_od_mm_override_mm = some v ∧ v ≤ inp.tube_id_mm) ∧
    (("perm_o2_mmol_m_per_m2_s_kpa is required for permeability mode") ∈
        validation_errors inp ↔
      inp.transfer_model = ("permeability") ∧ inp.perm_o2_mmol_m_per_m2_s_kpa = none) ∧
    (("perm_o2_mmol_m_per_m2_s_kpa must be >= 0") ∈ validation_errors inp ↔
      inp.transfer_model = ("permeability") ∧
        ∃ v, inp.perm_o2_mmol_m_per_m2_s_kpa = some v ∧ v < 0) ∧
    (("perm_n2_mmol_m_per_m2_s_kpa is required for permeability mode") ∈
        validation_errors inp ↔
      inp.transfer_model = ("permeability") ∧ inp.perm_n2_mmol_m_per_m2_s_kpa = none) ∧
    (("perm_n2_mmol_m_per_m2_s_kpa must be >= 0") ∈ validation_errors inp ↔
      inp.transfer_model = ("permeability") ∧
        ∃ v, inp.perm_n2_mmol_m_per_m2_s_kpa = some v ∧ v < 0) ∧
    (("perm_co2_mmol_m_per_m2_s_kpa is required for co2_transfer_model=\x27permeability\x27") ∈
        validation_errors inp ↔
      inp.co2_transfer_model = ("permeability") ∧
        inp.perm_co2_mmol_m_per_m2_s_kpa = none) ∧
    (("perm_co2_mmol_m_per_m2_s_kpa must be >= 0") ∈ validation_errors inp ↔
      inp.co2_transfer_model = ("permeability") ∧
        ∃ v, inp.perm_co2_mmol_m_per_m2_s_kpa = some v ∧ v < 0) ∧
    ((∃ e, constant_solubility_model sp t = Except.error e) ↔
      ¬ (sp = ("O2") ∨ sp = ("N2") ∨ sp = ("CO2"))) ∧
    ((("Unsupported species: ") ++ sp) ∉ validation_errors inp) := by
  refine ⟨?_, ?_, ?_, ?_, ?_, ?_, ?_, ?_, ?_, ?_, ?_, ?_, ?_, ?_, ?_, ?_, ?_, ?_,
    ?_, ?_, ?_, ?_, ?_, ?_, ?_, ?_, ?_, ?_, ?_, ?_, ?_, ?_, ?_, ?_, ?_, ?_, ?_,
    ?_, ?_, ?_⟩
  · unfold validate_inputs
    split
    · rename_i h; simp [h]
    · rename_i h; simp [h]
  · unfold validate_inputs
    split
    · rename_i h; simp [h]
    · rename_i h; simp [h]
  case _ => simp [validation_errors]
  case _ => simp [validation_errors]
  case _ => simp [validation_errors]
  case _ => simp [validation_errors]
  case _ => simp [validation_errors]
  case _ => simp [validation_errors]
  case _ => simp [validation_errors]
  case _ => simp [validation_errors]
  case _ => simp [validation_errors]
  case _ => simp [validation_errors]
  case _ => simp [validation_errors]
  case _ => simp [validation_errors]
  case _ => simp [validation_errors]
  case _ => simp [validation_errors]
  case _ => simp [validation_errors]
  case _ => simp [validation_errors]
  case _ => simp [validation_errors]
  case _ => simp [validation_errors]
  case _ => simp [validation_errors]
  case _ => simp [validation_errors]
  case _ => simp [validation_errors]
  case _ => simp [validation_errors]
  case _ => simp [validation_errors]
  case _ => simp [validation_errors]
  case _ => simp [validation_errors]
  case _ => simp [validation_errors]
  case _ => simp [validation_errors]
  case _ => simp [validation_errors]
  case _ => simp [validation_errors]
  case _ => simp [validation_errors]
  case _ => simp [validation_errors]
  case _ => simp [validation_errors]
  case _ => simp [validation_errors]
  case _ => simp [validation_errors]
  case _ => simp [validation_errors]
  case _ => simp [validation_errors]
  · unfold constant_solubility_model
    dsimp only
    split_ifs <;> simp_all
  · intro hmem
    have h2 := validation_errors_subset inp hmem
    apply allMsgs_head _ h2
    rw [String.data_append]
    have h : (("Unsupported species: ") : String).data =
        ('U') :: (("nsupported species: ") : String).data := by decide
    rw [h]
    rfl

/-
  Claim C2: the steady outlet against simulate's final sample.
-/

theorem steady_lumped {inp : SimulationInputs} (h : inp.gas_liquid_model = ("lumped"))
    (cO2 cN2 : ℝ) :
    compute_single_pass_steady_outlet inp cO2 cN2 =
      { out_o2 := lumpedOutO2 inp cO2
        out_n2 := lumpedOutN2 inp cN2
        o2_transfer_limited := lumpedLimited inp cO2
        residence_time_s := residenceTimeS inp } := by
  unfold compute_single_pass_steady_outlet
  rw [if_neg (by simp [h])]

theorem steady_segmented {inp : SimulationInputs}
    (h : inp.gas_liquid_model = ("segmented")) (cO2 cN2 : ℝ) :
    compute_single_pass_steady_outlet inp cO2 cN2 =
      { out_o2 := segOutO2 inp cO2 cN2
        out_n2 := segOutN2 inp cO2 cN2
        o2_transfer_limited := segLimited inp cO2 cN2
        residence_time_s := residenceTimeS inp } := by
  unfold compute_single_pass_steady_outlet
  rw [if_pos h]

/-- C2 (amended): in both gas-liquid modes, the final sample of simulate's
time series equals (exactly, hence within 1e-12) the outlet returned by
compute_single_pass_steady_outlet invoked with the initial concentrations —
provided the liquid residence time does not exceed the last grid time
(floor(t_end/dt) * dt).  When the residence time exceeds the last grid time
the final sample is the inlet value instead (see the counterexample), so the
claim's "including when the residence time exceeds t_end" clause is wrong. -/
theorem C2_final_sample_amended (inp : SimulationInputs) (hv : ValidInputs inp)
    (hres : residenceTimeS inp ≤ ((simNSteps inp - 1 : ℕ) : ℝ) * inp.dt_s) :
    simFinalO2 inp =
      (compute_single_pass_steady_outlet inp inp.c_o2_init_mmol_l inp.c_n2_init_mmol_l).out_o2 ∧
    simFinalN2 inp =
      (compute_single_pass_steady_outlet inp inp.c_o2_init_mmol_l inp.c_n2_init_mmol_l).out_n2 ∧
    |simFinalO2 inp -
      (compute_single_pass_steady_outlet inp inp.c_o2_init_mmol_l inp.c_n2_init_mmol_l).out_o2| ≤
        1e-12 ∧
    |simFinalN2 inp -
      (compute_single_pass_steady_outlet inp inp.c_o2_init_mmol_l inp.c_n2_init_mmol_l).out_n2| ≤
        1e-12 := by
  have hmask : ¬ (((simNSteps inp - 1 : ℕ) : ℝ) * inp.dt_s < residenceTimeS inp) :=
    not_lt.mpr hres
  have hO2 : simFinalO2 inp =
      (compute_single_pass_steady_outlet inp inp.c_o2_init_mmol_l inp.c_n2_init_mmol_l).out_o2 := by
    unfold simFinalO2 simSampleO2
    rw [if_neg hmask]
  have hN2 : simFinalN2 inp =
      (compute_single_pass_steady_outlet inp inp.c_o2_init_mmol_l inp.c_n2_init_mmol_l).out_n2 := by
    unfold simFinalN2 simSampleN2
    rw [if_neg hmask]
  refine ⟨hO2, hN2, ?_, ?_⟩
  · rw [hO2, sub_self, abs_zero]
    norm_num
  · rw [hN2, sub_self, abs_zero]
    norm_num

/-- C2 witness: the amended theorem applied to exBase (residence time about
77 s, last grid time 600 s). -/
theorem C2_final_sample_amended_witness :
    simFinalO2 exBase =
      (compute_single_pass_steady_outlet exBase exBase.c_o2_init_mmol_l
        exBase.c_n2_init_mmol_l).out_o2 := by
  have hres : residenceTimeS exBase ≤ ((simNSteps exBase - 1 : ℕ) : ℝ) * exBase.dt_s := by
    have hn : simNSteps exBase = 601 := by
      unfold simNSteps exBase
      norm_num
      decide
    rw [hn]
    unfold residenceTimeS compute_residence_time_s tubeVolumeMl compute_tube_volume_ml exBase
    norm_num
    nlinarith [Real.pi_lt_d2, Real.pi_pos]
  exact (C2_final_sample_amended exBase exBase_valid hres).1

/-- C2 counterexample: a valid lumped configuration whose residence time
(about 772 s) exceeds the horizon (10 s): the final sample equals the inlet
0.25 while the steady outlet was moved far away by the O2 supply cap
(validate_inputs accepts the negative absolute temperature that makes the
supply rate negative), so the claimed 1e-12 agreement fails. -/
theorem C2_counterexample :
    ValidInputs ce2 ∧
    |simFinalO2 ce2 -
      (compute_single_pass_steady_outlet ce2 ce2.c_o2_init_mmol_l
        ce2.c_n2_init_mmol_l).out_o2| > 1e-12 := by
  have hval : ValidInputs ce2 := by
    unfold ValidInputs validation_errors ce2 exBase
    norm_num
    simp
  refine ⟨hval, ?_⟩
  have hfin : simFinalO2 ce2 = 0.25 := by
    unfold simFinalO2 simSampleO2
    have hn : simNSteps ce2 = 3 := by
      unfold simNSteps ce2 exBase
      norm_num
      decide
    rw [hn]
    rw [if_pos ?_]
    · show ce2.c_o2_init_mmol_l = 0.25
      rfl
    · unfold residenceTimeS compute_residence_time_s tubeVolumeMl
        compute_tube_volume_ml ce2 exBase
      norm_num
      nlinarith [Real.pi_gt_three]
  have hsteady : (compute_single_pass_steady_outlet ce2 ce2.c_o2_init_mmol_l
      ce2.c_n2_init_mmol_l).out_o2 = 0.25 + o2SupplyRate ce2 / 0.001 := by
    rw [steady_lumped (by rfl)]
    show lumpedOutO2 ce2 ce2.c_o2_init_mmol_l = 0.25 + o2SupplyRate ce2 / 0.001
    have hraw : lumpedRawO2 ce2 ce2.c_o2_init_mmol_l = 0.25 := by
      have hk : klaO2Eff ce2 = 0 := by
        unfold klaO2Eff
        rw [if_neg (by simp [ce2, exBase])]
        rfl
      unfold lumpedRawO2 compute_single_pass_outlet_concentration
      rw [hk]
      have hc : ce2.c_o2_init_mmol_l = 0.25 := rfl
      rw [hc]
      simp [Real.exp_zero]
    have hsup : o2SupplyRate ce2 < 0 := by
      unfold o2SupplyRate compute_gas_o2_supply_rate_mmol_min
      simp only [ce2, exBase]
      norm_num
    have hlim : lumpedLimited ce2 ce2.c_o2_init_mmol_l := by
      unfold lumpedLimited
      rw [hraw]
      show max 0 ((0.25 - ce2.c_o2_init_mmol_l) * qLiqLMin ce2) > o2SupplyRate ce2
      have : (0.25 - ce2.c_o2_init_mmol_l) * qLiqLMin ce2 = 0 := by
        have hc : ce2.c_o2_init_mmol_l = 0.25 := rfl
        rw [hc]
        ring
      rw [this]
      simpa using hsup
    unfold lumpedOutO2
    rw [if_pos hlim]
    have hq : max (qLiqLMin ce2) 1e-15 = 0.001 := by
      unfold qLiqLMin
      simp only [ce2, exBase]
      norm_num
    rw [hq]
    have hc : ce2.c_o2_init_mmol_l = 0.25 := rfl
    rw [hc]
  rw [hfin, hsteady]
  have hsup2 : o2SupplyRate ce2 < -2 := by
    unfold o2SupplyRate compute_gas_o2_supply_rate_mmol_min
    simp only [ce2, exBase]
    norm_num
  have hdiv : o2SupplyRate ce2 / 1e-3 = o2SupplyRate ce2 * 1000 := by ring
  rw [abs_sub_comm]
  rw [hdiv]
  rw [abs_of_nonpos (by nlinarith)]
  nlinarith

/-
  Claim C4: lumped outlet lies between inlet and equilibrium.
-/

theorem outlet_between (cin cstar kla tau : ℝ) (hk : 0 ≤ kla) (ht : 0 ≤ tau) :
    min cin cstar ≤ compute_single_pass_outlet_concentration cin cstar kla tau ∧
    compute_single_pass_outlet_concentration cin cstar kla tau ≤ max cin cstar := by
  unfold compute_single_pass_outlet_concentration
  have hE0 : 0 < Real.exp (-kla * tau) := Real.exp_pos _
  have hE1 : Real.exp (-kla * tau) ≤ 1 := Real.exp_le_one_iff.mpr (by nlinarith)
  rcases le_total cin cstar with hle | hle
  · rw [min_eq_left hle, max_eq_right hle]
    constructor <;>
      nlinarith [mul_nonneg (sub_nonneg.mpr hle) (sub_nonneg.mpr hE1),
        mul_nonneg (sub_nonneg.mpr hle) hE0.le]
  · rw [min_eq_right hle, max_eq_left hle]
    constructor <;>
      nlinarith [mul_nonneg (sub_nonneg.mpr hle) (sub_nonneg.mpr hE1),
        mul_nonneg (sub_nonneg.mpr hle) hE0.le]

theorem lumpedOutO2_between {inp : SimulationInputs} (hv : ValidInputs inp)
    (hT : 0 < inp.temperature_c + 273.15) (cO2 : ℝ) :
    min cO2 (cstarO2 inp) ≤ lumpedOutO2 inp cO2 ∧
    lumpedOutO2 inp cO2 ≤ max cO2 (cstarO2 inp) := by
  have hraw := outlet_between cO2 (cstarO2 inp) (klaO2Eff inp) (residenceTimeS inp)
    (klaO2Eff_nonneg hv) (residenceTimeS_pos hv).le
  have hsup : 0 ≤ o2SupplyRate inp := o2SupplyRate_nonneg hv hT
  have hq : 0 < qLiqLMin inp := qLiq_pos hv
  have hq' : 0 < max (qLiqLMin inp) 1e-15 := lt_max_of_lt_left hq
  have hqle : qLiqLMin inp ≤ max (qLiqLMin inp) 1e-15 := le_max_left _ _
  unfold lumpedOutO2
  split
  case isTrue hlim =>
    unfold lumpedLimited at hlim
    have hpos : (lumpedRawO2 inp cO2 - cO2) * qLiqLMin inp > o2SupplyRate inp := by
      rcases le_or_lt ((lumpedRawO2 inp cO2 - cO2) * qLiqLMin inp) 0 with h0 | h0
      · rw [max_eq_left h0] at hlim
        linarith
      · rwa [max_eq_right h0.le] at hlim
    have hrawgt : cO2 < lumpedRawO2 inp cO2 := by nlinarith
    have hdivlt : o2SupplyRate inp / max (qLiqLMin inp) 1e-15 < lumpedRawO2 inp cO2 - cO2 := by
      rw [div_lt_iff₀ hq']
      calc o2SupplyRate inp < (lumpedRawO2 inp cO2 - cO2) * qLiqLMin inp := hpos
        _ ≤ (lumpedRawO2 inp cO2 - cO2) * max (qLiqLMin inp) 1e-15 :=
          mul_le_mul_of_nonneg_left hqle (by linarith)
    constructor
    · have : min cO2 (cstarO2 inp) ≤ cO2 := min_le_left _ _
      have : 0 ≤ o2SupplyRate inp / max (qLiqLMin inp) 1e-15 := div_nonneg hsup hq'.le
      linarith
    · have hrawle : lumpedRawO2 inp cO2 ≤ max cO2 (cstarO2 inp) := hraw.2
      linarith
  case isFalse hlim => exact hraw

/-- C4 (amended): for every valid lumped-mode input whose gas temperature is
above absolute zero (so the O2 supply rate is non-negative — validate_inputs
does not check the temperature), each species' outlet lies between the inlet
and the equilibrium concentration, inclusive, also after the O2 cap. -/
theorem C4_between_amended (inp : SimulationInputs) (hv : ValidInputs inp)
    (hlum : inp.gas_liquid_model = ("lumped"))
    (hT : 0 < inp.temperature_c + 273.15) (cO2 cN2 : ℝ) :
    (min cO2 (cstarO2 inp) ≤ (compute_single_pass_steady_outlet inp cO2 cN2).out_o2 ∧
      (compute_single_pass_steady_outlet inp cO2 cN2).out_o2 ≤ max cO2 (cstarO2 inp)) ∧
    (min cN2 (cstarN2 inp) ≤ (compute_single_pass_steady_outlet inp cO2 cN2).out_n2 ∧
      (compute_single_pass_steady_outlet inp cO2 cN2).out_n2 ≤ max cN2 (cstarN2 inp)) := by
  rw [steady_lumped hlum]
  exact ⟨lumpedOutO2_between hv hT cO2,
    outlet_between cN2 (cstarN2 inp) (klaN2Eff inp) (residenceTimeS inp)
      (klaN2Eff_nonneg hv) (residenceTimeS_pos hv).le⟩

/-- C4 witness: the amended theorem at exBase with inlet (0.1, 0). -/
theorem C4_between_amended_witness :
    min 0.1 (cstarO2 exBase) ≤ (compute_single_pass_steady_outlet exBase 0.1 0).out_o2 ∧
    (compute_single_pass_steady_outlet exBase 0.1 0).out_o2 ≤ max 0.1 (cstarO2 exBase) :=
  (C4_between_amended exBase exBase_valid (by rfl) (by norm_num [exBase]) 0.1 0).1

/-- C4 counterexample: at a validate-accepted negative absolute temperature
the O2 supply rate is negative, the cap engages on a desorbing inlet, and
the capped outlet falls strictly below both the inlet and the equilibrium
concentration. -/
theorem C4_counterexample :
    ValidInputs ce4 ∧
    (compute_single_pass_steady_outlet ce4 1 0).out_o2 < min 1 (cstarO2 ce4) := by
  have hval : ValidInputs ce4 := by
    unfold ValidInputs validation_errors ce4 exBase
    norm_num
    simp
  refine ⟨hval, ?_⟩
  have hcstar : cstarO2 ce4 = 0.1344 := by
    unfold cstarO2 compute_equilibrium_concentrations constSol
    simp only [ce4, exBase]
    norm_num
  have hsup : o2SupplyRate ce4 < -1.2 := by
    unfold o2SupplyRate compute_gas_o2_supply_rate_mmol_min
    simp only [ce4, exBase]
    norm_num
  have hrawle : lumpedRawO2 ce4 1 ≤ 1 := by
    have h := (outlet_between 1 (cstarO2 ce4) (klaO2Eff ce4) (residenceTimeS ce4)
      (klaO2Eff_nonneg hval) (residenceTimeS_pos hval).le).2
    rw [hcstar] at h
    rw [max_eq_left (by norm_num)] at h
    unfold lumpedRawO2
    rw [hcstar]
    exact h
  have hlim : lumpedLimited ce4 1 := by
    unfold lumpedLimited
    have hql : qLiqLMin ce4 = 0.01 := by
      unfold qLiqLMin
      simp only [ce4, exBase]
      norm_num
    rw [hql]
    rw [max_eq_left (by nlinarith)]
    linarith
  rw [steady_lumped (by rfl)]
  show lumpedOutO2 ce4 1 < min 1 (cstarO2 ce4)
  unfold lumpedOutO2
  rw [if_pos hlim]
  have hql : qLiqLMin ce4 = 0.01 := by
    unfold qLiqLMin
    simp only [ce4, exBase]
    norm_num
  rw [hql, hcstar]
  rw [max_eq_left (by norm_num)]
  have hdiv : o2SupplyRate ce4 / 0.01 = o2SupplyRate ce4 * 100 := by ring
  rw [hdiv]
  rw [min_eq_right (by norm_num)]
  nlinarith

/-
  Claim C1: the lumped outlet formula and the O2 gas-supply cap.
-/

theorem lumpedLimited_iff {inp : SimulationInputs} (hsup : 0 ≤ o2SupplyRate inp)
    (cO2 : ℝ) :
    lumpedLimited inp cO2 ↔
      (lumpedRawO2 inp cO2 - cO2) * qLiqLMin inp > o2SupplyRate inp := by
  unfold lumpedLimited
  constructor
  · intro h
    rcases le_or_lt ((lumpedRawO2 inp cO2 - cO2) * qLiqLMin inp) 0 with h0 | h0
    · rw [max_eq_left h0] at h
      linarith
    · rwa [max_eq_right h0.le] at h
  · intro h
    exact lt_of_lt_of_le h (le_max_right _ _)

/-- C1 (amended): for every valid lumped-mode input whose gas temperature is
above absolute zero and whose liquid flow is at least 1e-12 mL/min (two
guards the claim omits: validate_inputs does not check the temperature, and
the code clamps the required rate at zero and divides by max(q, 1e-15)),
the outlet of each species is Cstar + (inlet - Cstar)*exp(-kLa*residence);
for O2 only, when (outlet - inlet)*liquidFlow exceeds the gas O2 supply rate
the outlet is recomputed as inlet + supplyRate/liquidFlow and the result is
flagged transfer-limited; N2 is never capped. -/
theorem C1_lumped_amended (inp : SimulationInputs) (hv : ValidInputs inp)
    (hlum : inp.gas_liquid_model = ("lumped"))
    (hT : 0 < inp.temperature_c + 273.15) (hq : 1e-12 ≤ inp.flow_ml_min)
    (cO2 cN2 : ℝ) :
    (compute_single_pass_steady_outlet inp cO2 cN2).out_n2 =
      compute_single_pass_outlet_concentration cN2 (cstarN2 inp) (klaN2Eff inp)
        (residenceTimeS inp) ∧
    ((compute_single_pass_outlet_concentration cO2 (cstarO2 inp) (klaO2Eff inp)
        (residenceTimeS inp) - cO2) * qLiqLMin inp > o2SupplyRate inp →
      (compute_single_pass_steady_outlet inp cO2 cN2).out_o2 =
        cO2 + o2SupplyRate inp / qLiqLMin inp ∧
      (compute_single_pass_steady_outlet inp cO2 cN2).o2_transfer_limited) ∧
    (¬ ((compute_single_pass_outlet_concentration cO2 (cstarO2 inp) (klaO2Eff inp)
        (residenceTimeS inp) - cO2) * qLiqLMin inp > o2SupplyRate inp) →
      (compute_single_pass_steady_outlet inp cO2 cN2).out_o2 =
        compute_single_pass_outlet_concentration cO2 (cstarO2 inp) (klaO2Eff inp)
          (residenceTimeS inp) ∧
      ¬ (compute_single_pass_steady_outlet inp cO2 cN2).o2_transfer_limited) := by
  have hsup : 0 ≤ o2SupplyRate inp := o2SupplyRate_nonneg hv hT
  have hqmax : max (qLiqLMin inp) 1e-15 = qLiqLMin inp := by
    apply max_eq_left
    unfold qLiqLMin
    linarith
  have hiff := lumpedLimited_iff hsup cO2
  have hrawEq : lumpedRawO2 inp cO2 =
      compute_single_pass_outlet_concentration cO2 (cstarO2 inp) (klaO2Eff inp)
        (residenceTimeS inp) := rfl
  rw [steady_lumped hlum]
  refine ⟨rfl, ?_, ?_⟩
  · intro hcap
    have hlim : lumpedLimited inp cO2 := hiff.mpr (by rw [hrawEq]; exact hcap)
    constructor
    · show lumpedOutO2 inp cO2 = _
      unfold lumpedOutO2
      rw [if_pos hlim, hqmax]
    · exact hlim
  · intro hcap
    have hlim : ¬ lumpedLimited inp cO2 := by
      intro hl
      exact hcap (by rw [← hrawEq]; exact hiff.mp hl)
    constructor
    · show lumpedOutO2 inp cO2 = _
      unfold lumpedOutO2
      rw [if_neg hlim]
      exact hrawEq
    · exact hlim

/-- C1 witness: the amended theorem at exBase with zero inlets. -/
theorem C1_lumped_amended_witness :
    (compute_single_pass_steady_outlet exBase 0 0).out_n2 =
      compute_single_pass_outlet_concentration 0 (cstarN2 exBase) (klaN2Eff exBase)
        (residenceTimeS exBase) :=
  (C1_lumped_amended exBase exBase_valid (by rfl) (by norm_num [exBase])
    (by norm_num [exBase]) 0 0).1

/-- C1 counterexample: ce1 is accepted by validate_inputs (its temperature
is below absolute zero, making the O2 supply rate negative), the claim's
cap condition (outlet - inlet)*liquidFlow > supplyRate is false there, yet
the code's outlet is not the claimed closed-form value: the code clamps the
required rate at zero, so its cap engages anyway. -/
theorem C1_counterexample :
    ValidInputs ce1 ∧
    ¬ ((lumpedRawO2 ce1 1 - 1) * qLiqLMin ce1 > o2SupplyRate ce1) ∧
    (compute_single_pass_steady_outlet ce1 1 0).out_o2 ≠ claimLumpedOutO2 ce1 1 := by
  have hval : ValidInputs ce1 := by
    unfold ValidInputs validation_errors ce1 exBase
    norm_num
    simp
  have hq : qLiqLMin ce1 = 1 := by
    unfold qLiqLMin
    simp only [ce1, exBase]
    norm_num
  have hcstar : cstarO2 ce1 = 0.0128 := by
    unfold cstarO2 compute_equilibrium_concentrations constSol
    simp only [ce1, exBase]
    norm_num
  have hsupb : -1.3e-7 < o2SupplyRate ce1 ∧ o2SupplyRate ce1 < -1.1e-7 := by
    unfold o2SupplyRate compute_gas_o2_supply_rate_mmol_min
    simp only [ce1, exBase]
    norm_num
  have hkla : klaO2Eff ce1 = 0.01 := by
    unfold klaO2Eff
    rw [if_neg (by simp [ce1, exBase])]
    rfl
  have hres : residenceTimeS ce1 = 0.24576 * Real.pi := by
    unfold residenceTimeS compute_residence_time_s tubeVolumeMl compute_tube_volume_ml
    simp only [ce1, exBase]
    ring
  -- bounds on x = kla * residence and on E = exp(-x)
  have hpi1 := Real.pi_gt_d6
  have hpi2 := Real.pi_lt_d6
  have hxval : klaO2Eff ce1 * residenceTimeS ce1 = 0.0024576 * Real.pi := by
    rw [hkla, hres]
    ring
  have hx1 : 0.0077 < klaO2Eff ce1 * residenceTimeS ce1 := by
    rw [hxval]
    nlinarith
  have hx2 : klaO2Eff ce1 * residenceTimeS ce1 < 0.0078 := by
    rw [hxval]
    nlinarith
  have hEub : Real.exp (-(klaO2Eff ce1) * residenceTimeS ce1) ≤
      1 / (1 + klaO2Eff ce1 * residenceTimeS ce1) := by
    have h1 := Real.add_one_le_exp (klaO2Eff ce1 * residenceTimeS ce1)
    have h2 : (0 : ℝ) < 1 + klaO2Eff ce1 * residenceTimeS ce1 := by nlinarith
    have h3 : Real.exp (-(klaO2Eff ce1) * residenceTimeS ce1) =
        (Real.exp (klaO2Eff ce1 * residenceTimeS ce1))⁻¹ := by
      rw [← Real.exp_neg]
      ring_nf
    rw [h3, one_div]
    exact inv_anti₀ h2 (by linarith)
  have hEub2 : Real.exp (-(klaO2Eff ce1) * residenceTimeS ce1) ≤ 0.9924 := by
    have h2 : (1 : ℝ) / (1 + klaO2Eff ce1 * residenceTimeS ce1) ≤ 1 / 1.0077 := by
      apply div_le_div_of_nonneg_left (by norm_num) (by norm_num)
      linarith
    calc Real.exp (-(klaO2Eff ce1) * residenceTimeS ce1) ≤
        1 / (1 + klaO2Eff ce1 * residenceTimeS ce1) := hEub
      _ ≤ 1 / 1.0077 := h2
      _ ≤ 0.9924 := by norm_num
  have hEpos : 0 < Real.exp (-(klaO2Eff ce1) * residenceTimeS ce1) := Real.exp_pos _
  -- the uncapped outlet
  have hrawval : lumpedRawO2 ce1 1 =
      0.0128 + 0.9872 * Real.exp (-(klaO2Eff ce1) * residenceTimeS ce1) := by
    unfold lumpedRawO2 compute_single_pass_outlet_concentration
    rw [hcstar]
    ring
  have hrawub : lumpedRawO2 ce1 1 ≤ 0.9925 := by
    rw [hrawval]
    nlinarith
  have hrawlb : 0 < lumpedRawO2 ce1 1 := by
    rw [hrawval]
    nlinarith
  refine ⟨hval, ?_, ?_⟩
  · rw [hq]
    push_neg
    nlinarith [hsupb.1]
  · have hlim : lumpedLimited ce1 1 := by
      unfold lumpedLimited
      rw [hq]
      rw [max_eq_left (by nlinarith)]
      nlinarith [hsupb.2]
    rw [steady_lumped (by rfl)]
    show lumpedOutO2 ce1 1 ≠ claimLumpedOutO2 ce1 1
    unfold lumpedOutO2 claimLumpedOutO2
    rw [if_pos hlim, if_neg (by rw [hq]; push_neg; nlinarith [hsupb.1])]
    rw [hq]
    rw [max_eq_left (by norm_num)]
    intro hcontra
    have : o2SupplyRate ce1 / 1 = o2SupplyRate ce1 := by ring
    rw [this] at hcontra
    nlinarith [hsupb.1, hsupb.2]

/-
  Shared lemmas about the segmented counterflow machinery.
-/

theorem gasDown_nonneg {inlet : ℝ} (h : 0 ≤ inlet) (tr : ℕ → ℝ) (n : ℕ) :
    ∀ k, 0 ≤ gasDown inlet tr n k := by
  intro k
  induction k with
  | zero => exact h
  | succ k _ => exact le_max_left 0 _

theorem gasUpdate_nonneg {inlet : ℝ} (h : 0 ≤ inlet) (tr : ℕ → ℝ) (n : ℕ) (s : ℕ) :
    0 ≤ gasUpdate inlet tr n s :=
  gasDown_nonneg h tr n (n - s)

theorem gasUpdate_top (inlet : ℝ) (tr : ℕ → ℝ) (n : ℕ) :
    gasUpdate inlet tr n n = inlet := by
  unfold gasUpdate
  rw [Nat.sub_self]
  rfl

/-- Every state produced or threaded by segLoop satisfies an invariant that
holds initially and is preserved by segNext. -/
theorem segLoop_inv (inp : SimulationInputs) (cO2in cN2in : ℝ) (P : SegState → Prop)
    (hstep : ∀ st, P st → P (segNext inp cO2in cN2in st)) :
    ∀ fuel st, P st →
      P (segLoop inp cO2in cN2in fuel st).1 ∧ P (segLoop inp cO2in cN2in fuel st).2 := by
  intro fuel
  induction fuel with
  | zero => exact fun st h => ⟨h, h⟩
  | succ fuel ih =>
    intro st h
    rw [segLoop]
    split
    · exact ⟨h, hstep st h⟩
    · exact ih _ (hstep st h)

/-- With a zero per-segment transfer factor and non-negative gas interface
flows, the liquid profile never moves off the inlet value. -/
theorem liqProfile_const_of_a_zero (sol p q cin : ℝ) (gS gO : ℕ → ℝ)
    (hg : ∀ s, 0 ≤ gS s) : ∀ s, liqProfile sol p 0 q cin gS gO s = cin := by
  intro s
  induction s with
  | zero => rfl
  | succ s ih =>
    rw [liqProfile, ih]
    have hraw : segDcRaw sol p 0 (cin) (gS (s + 1)) (gO (s + 1)) = 0 := by
      unfold segDcRaw
      ring
    have hcap : ¬ segCapHit sol p 0 q (cin) (gS (s + 1)) (gO (s + 1)) := by
      unfold segCapHit
      rw [hraw]
      push_neg
      simpa using hg (s + 1)
    unfold segDc
    rw [if_neg hcap, hraw]
    ring

theorem gasConc_pos {inp : SimulationInputs} (hv : ValidInputs inp)
    (hT : 0 < inp.temperature_c + 273.15) : 0 < gasConcMmolL inp := by
  unfold gasConcMmolL
  have := valid_p_pos hv
  positivity

theorem nO2Inlet_nonneg {inp : SimulationInputs} (hv : ValidInputs inp)
    (hT : 0 < inp.temperature_c + 273.15) : 0 ≤ nO2InletMmolMin inp := by
  unfold nO2InletMmolMin totalGasMmolMin
  have h1 := gasConc_pos hv hT
  have h2 := valid_gas_flow_pos hv
  have h3 := (valid_y_o2_mem hv).1
  positivity

theorem nN2Inlet_nonneg {inp : SimulationInputs} (hv : ValidInputs inp)
    (hT : 0 < inp.temperature_c + 273.15) : 0 ≤ nN2InletMmolMin inp := by
  unfold nN2InletMmolMin totalGasMmolMin
  have h1 := gasConc_pos hv hT
  have h2 := valid_gas_flow_pos hv
  have h3 := (valid_y_n2_mem hv).1
  positivity

/-- The gas-nonnegativity invariant of the O2/N2 segmented loop. -/
def SegNonneg (st : SegState) : Prop :=
  ∀ s, 0 ≤ st.gO2 s ∧ 0 ≤ st.gN2 s

theorem segStates_nonneg {inp : SimulationInputs} (hv : ValidInputs inp)
    (hT : 0 < inp.temperature_c + 273.15) (cO2in cN2in : ℝ) :
    SegNonneg (segResultStates inp cO2in cN2in).1 ∧
    SegNonneg (segResultStates inp cO2in cN2in).2 := by
  have hO2 := nO2Inlet_nonneg hv hT
  have hN2 := nN2Inlet_nonneg hv hT
  apply segLoop_inv inp cO2in cN2in SegNonneg
  · intro st _
    intro s
    exact ⟨gasUpdate_nonneg hO2 _ _ _, gasUpdate_nonneg hN2 _ _ _⟩
  · intro s
    exact ⟨hO2, hN2⟩

/-
  Claim C5: zero transfer rate means the outlet stays at the inlet.
-/

theorem aO2_zero {inp : SimulationInputs} (hkla : klaO2Eff inp = 0) : aO2 inp = 0 := by
  unfold aO2
  rw [hkla]
  simp

theorem aN2_zero {inp : SimulationInputs} (hkla : klaN2Eff inp = 0) : aN2 inp = 0 := by
  unfold aN2
  rw [hkla]
  simp

theorem klaO2Eff_zero_of_kla {inp : SimulationInputs}
    (h1 : inp.transfer_model = ("kla")) (h2 : inp.kla_o2_s_inv = 0) :
    klaO2Eff inp = 0 := by
  unfold klaO2Eff
  rw [if_neg (by simp [h1]), h2]

theorem klaO2Eff_zero_of_perm {inp : SimulationInputs}
    (h1 : inp.transfer_model = ("permeability"))
    (h2 : inp.perm_o2_mmol_m_per_m2_s_kpa = some 0) :
    klaO2Eff inp = 0 := by
  unfold klaO2Eff
  rw [if_pos h1]
  unfold compute_effective_kla_from_permeability
  dsimp only
  rw [if_pos (by rfl), h2]
  simp

theorem klaN2Eff_zero_of_kla {inp : SimulationInputs}
    (h1 : inp.transfer_model = ("kla")) (h2 : inp.kla_n2_s_inv = 0) :
    klaN2Eff inp = 0 := by
  unfold klaN2Eff
  rw [if_neg (by simp [h1]), h2]

theorem klaN2Eff_zero_of_perm {inp : SimulationInputs}
    (h1 : inp.transfer_model = ("permeability"))
    (h2 : inp.perm_n2_mmol_m_per_m2_s_kpa = some 0) :
    klaN2Eff inp = 0 := by
  unfold klaN2Eff
  rw [if_pos h1]
  unfold compute_effective_kla_from_permeability
  dsimp only
  rw [if_neg (by simp), if_pos (by rfl), h2]
  simp

theorem segOutO2_const {inp : SimulationInputs} (hv : ValidInputs inp)
    (hT : 0 < inp.temperature_c + 273.15) (hkla : klaO2Eff inp = 0)
    (cO2in cN2in : ℝ) : segOutO2 inp cO2in cN2in = cO2in := by
  unfold segOutO2 o2Pass
  rw [aO2_zero hkla]
  exact liqProfile_const_of_a_zero _ _ _ _ _ _
    (fun s => ((segStates_nonneg hv hT cO2in cN2in).1 s).1) _

theorem segOutN2_const {inp : SimulationInputs} (hv : ValidInputs inp)
    (hT : 0 < inp.temperature_c + 273.15) (hkla : klaN2Eff inp = 0)
    (cO2in cN2in : ℝ) : segOutN2 inp cO2in cN2in = cN2in := by
  unfold segOutN2 n2Pass
  rw [aN2_zero hkla]
  exact liqProfile_const_of_a_zero _ _ _ _ _ _
    (fun s => ((segStates_nonneg hv hT cO2in cN2in).1 s).2) _

theorem lumpedOutO2_const {inp : SimulationInputs} (hv : ValidInputs inp)
    (hT : 0 < inp.temperature_c + 273.15) (hkla : klaO2Eff inp = 0) (cO2in : ℝ) :
    lumpedOutO2 inp cO2in = cO2in := by
  have hraw : lumpedRawO2 inp cO2in = cO2in := by
    unfold lumpedRawO2 compute_single_pass_outlet_concentration
    rw [hkla]
    simp
  have hnlim : ¬ lumpedLimited inp cO2in := by
    unfold lumpedLimited
    rw [hraw]
    push_neg
    have h1 : (cO2in - cO2in) * qLiqLMin inp = 0 := by ring
    rw [h1]
    simpa using o2SupplyRate_nonneg hv hT
  unfold lumpedOutO2
  rw [if_neg hnlim, hraw]

theorem lumpedOutN2_const {inp : SimulationInputs} (hkla : klaN2Eff inp = 0)
    (cN2in : ℝ) : lumpedOutN2 inp cN2in = cN2in := by
  unfold lumpedOutN2 compute_single_pass_outlet_concentration
  rw [hkla]
  simp

/-- C5 (amended): for every valid input whose gas temperature is above
absolute zero (validate_inputs does not check the temperature, and below
absolute zero the negative supply rate lets the O2 cap move the outlet even
with zero kLa — see the counterexample), a species with zero transfer rate
(kLa = 0 in kLa mode, or permeability 0 in permeability mode) keeps all of
simulate's time samples at its initial concentration, in both lumped and
segmented modes. -/
theorem C5_no_transfer_amended (inp : SimulationInputs) (hv : ValidInputs inp)
    (hT : 0 < inp.temperature_c + 273.15) :
    (((inp.transfer_model = ("kla") ∧ inp.kla_o2_s_inv = 0) ∨
      (inp.transfer_model = ("permeability") ∧
        inp.perm_o2_mmol_m_per_m2_s_kpa = some 0)) →
      ∀ i, simSampleO2 inp i = inp.c_o2_init_mmol_l) ∧
    (((inp.transfer_model = ("kla") ∧ inp.kla_n2_s_inv = 0) ∨
      (inp.transfer_model = ("permeability") ∧
        inp.perm_n2_mmol_m_per_m2_s_kpa = some 0)) →
      ∀ i, simSampleN2 inp i = inp.c_n2_init_mmol_l) := by
  constructor
  · intro hz i
    have hkla : klaO2Eff inp = 0 := by
      rcases hz with ⟨h1, h2⟩ | ⟨h1, h2⟩
      · exact klaO2Eff_zero_of_kla h1 h2
      · exact klaO2Eff_zero_of_perm h1 h2
    have hout : (compute_single_pass_steady_outlet inp inp.c_o2_init_mmol_l
        inp.c_n2_init_mmol_l).out_o2 = inp.c_o2_init_mmol_l := by
      rcases valid_gl_model_mem hv with hgl | hgl
      · rw [steady_lumped hgl]
        exact lumpedOutO2_const hv hT hkla _
      · rw [steady_segmented hgl]
        exact segOutO2_const hv hT hkla _ _
    unfold simSampleO2
    split
    · rfl
    · exact hout
  · intro hz i
    have hkla : klaN2Eff inp = 0 := by
      rcases hz with ⟨h1, h2⟩ | ⟨h1, h2⟩
      · exact klaN2Eff_zero_of_kla h1 h2
      · exact klaN2Eff_zero_of_perm h1 h2
    have hout : (compute_single_pass_steady_outlet inp inp.c_o2_init_mmol_l
        inp.c_n2_init_mmol_l).out_n2 = inp.c_n2_init_mmol_l := by
      rcases valid_gl_model_mem hv with hgl | hgl
      · rw [steady_lumped hgl]
        exact lumpedOutN2_const hkla _
      · rw [steady_segmented hgl]
        exact segOutN2_const hv hT hkla _ _
    unfold simSampleN2
    split
    · rfl
    · exact hout

/-- C5 witness: the amended theorem at exBase with kLa_O2 = 0, sample 0. -/
theorem C5_no_transfer_amended_witness :
    simSampleO2 exKla0 0 = exKla0.c_o2_init_mmol_l := by
  have hv : ValidInputs exKla0 := by
    unfold ValidInputs validation_errors exKla0 exBase
    norm_num
    simp
  exact (C5_no_transfer_amended exKla0 hv (by norm_num [exKla0, exBase])).1
    (Or.inl ⟨by rfl, by rfl⟩) 0

/-- C5 counterexample: ce5 has kLa_O2 = 0 in kLa mode, validate_inputs
accepts it (its temperature is below absolute zero), yet sample 1 of the
simulated O2 series is not the initial concentration: the negative supply
rate makes the lumped cap engage and move the steady outlet. -/
theorem C5_counterexample :
    ValidInputs ce5 ∧ ce5.transfer_model = ("kla") ∧ ce5.kla_o2_s_inv = 0 ∧
    simSampleO2 ce5 1 ≠ ce5.c_o2_init_mmol_l := by
  have hval : ValidInputs ce5 := by
    unfold ValidInputs validation_errors ce5 exBase
    norm_num
    simp
  refine ⟨hval, by rfl, by rfl, ?_⟩
  have hkla : klaO2Eff ce5 = 0 := klaO2Eff_zero_of_kla (by rfl) (by rfl)
  have hmask : ¬ ((1 : ℕ) : ℝ) * ce5.dt_s < residenceTimeS ce5 := by
    unfold residenceTimeS compute_residence_time_s tubeVolumeMl compute_tube_volume_ml
    simp only [ce5, exBase]
    push_neg
    norm_num
    nlinarith [Real.pi_lt_d6]
  have hraw : lumpedRawO2 ce5 ce5.c_o2_init_mmol_l = 0.25 := by
    unfold lumpedRawO2 compute_single_pass_outlet_concentration
    rw [hkla]
    have hc : ce5.c_o2_init_mmol_l = 0.25 := rfl
    rw [hc]
    simp
  have hsup : o2SupplyRate ce5 < -2 := by
    unfold o2SupplyRate compute_gas_o2_supply_rate_mmol_min
    simp only [ce5, exBase]
    norm_num
  have hlim : lumpedLimited ce5 ce5.c_o2_init_mmol_l := by
    unfold lumpedLimited
    rw [hraw]
    have hc : ce5.c_o2_init_mmol_l = 0.25 := rfl
    rw [hc]
    have h1 : ((0.25 : ℝ) - 0.25) * qLiqLMin ce5 = 0 := by ring
    rw [h1]
    simpa using hsup.trans (by norm_num)
  unfold simSampleO2
  rw [if_neg hmask]
  rw [steady_lumped (by rfl)]
  show lumpedOutO2 ce5 ce5.c_o2_init_mmol_l ≠ ce5.c_o2_init_mmol_l
  unfold lumpedOutO2
  rw [if_pos hlim]
  have hq : max (qLiqLMin ce5) 1e-15 = 10 := by
    unfold qLiqLMin
    simp only [ce5, exBase]
    norm_num
  rw [hq]
  have hc : ce5.c_o2_init_mmol_l = 0.25 := rfl
  rw [hc]
  intro hcontra
  have h2 : o2SupplyRate ce5 / 10 = -(0.25 - 0.25 - o2SupplyRate ce5 / 10) +
      (0.25 - 0.25) := by ring
  nlinarith

/-
  Claim C7: CO2/pH stage order.
-/

theorem max_zero_gt_iff {s y : ℝ} (hs : 0 ≤ s) : max 0 y > s ↔ y > s := by
  constructor
  · intro h
    rcases le_or_lt y 0 with h0 | h0
    · rw [max_eq_left h0] at h
      linarith
    · rwa [max_eq_right h0.le] at h
  · intro h
    exact lt_of_lt_of_le h (le_max_right _ _)

theorem applyDoStage_eq (inp : SimulationInputs) (c : ℝ) :
    applyDoStage inp c = c * Real.exp (-klaCO2Eff inp * stage2TauS inp) := by
  unfold applyDoStage compute_two_stage_co2_outlet_concentration
    compute_single_pass_outlet_concentration
  simp

theorem applyPhStage_expand {inp : SimulationInputs}
    (hen : inp.enable_co2_ph_stage = true) (c : ℝ) :
    applyPhStage inp c =
      (if max 0 ((cstarStage1 inp + (c - cstarStage1 inp) *
          Real.exp (-klaCO2Eff inp * stage1TauS inp) - c) * (inp.flow_ml_min / 1000)) >
          co2SupplyRate inp
       then c + co2SupplyRate inp / max (inp.flow_ml_min / 1000) 1e-15
       else cstarStage1 inp + (c - cstarStage1 inp) *
          Real.exp (-klaCO2Eff inp * stage1TauS inp)) := by
  unfold applyPhStage
  rw [if_pos hen]
  rfl

theorem stage1TauS_pos {inp : SimulationInputs} (hv : ValidInputs inp) :
    0 < stage1TauS inp := by
  unfold stage1TauS
  have h1 := tube_volume_pos (valid_tube_id_pos hv) (valid_ph_len_pos hv)
  have h2 : (0 : ℝ) < max inp.flow_ml_min 1e-15 := lt_max_of_lt_right (by norm_num)
  positivity

theorem stage2TauS_pos {inp : SimulationInputs} (hv : ValidInputs inp) :
    0 < stage2TauS inp := by
  unfold stage2TauS
  have h1 := tube_volume_pos (valid_tube_id_pos hv) (valid_len_pos hv)
  have h2 : (0 : ℝ) < max inp.flow_ml_min 1e-15 := lt_max_of_lt_right (by norm_num)
  positivity

theorem co2SupplyRate_pos {inp : SimulationInputs} (hv : ValidInputs inp)
    (hT : 0 < inp.temperature_c + 273.15) (hpct : 0 < inp.ph_gas_co2_percent) :
    0 < co2SupplyRate inp := by
  unfold co2SupplyRate compute_gas_o2_supply_rate_mmol_min yCO2Stage1
  have h1 := valid_ph_flow_pos hv
  have h2 := valid_p_pos hv
  positivity

theorem cstarStage1_pos {inp : SimulationInputs} (hv : ValidInputs inp)
    (hpct : 0 < inp.ph_gas_co2_percent) : 0 < cstarStage1 inp := by
  unfold cstarStage1 yCO2Stage1 constSol
  have h2 := valid_p_pos hv
  norm_num
  positivity

set_option maxHeartbeats 3200000 in
/-- C7 (amended): reversing the CO2/pH stage order changes the final
dissolved-CO2 outlet — provided the effective CO2 transfer rate and the
stage-1 CO2 gas fraction are positive, the gas temperature is above absolute
zero, and the liquid flow is at least 1e-12 mL/min.  (With kla_co2 = 0 or
0 percent CO2, both orders coincide — see the counterexample — so the claim
does not hold for every valid input with the stage enabled.)  In fact the
forward order, pH stage first, always ends strictly lower. -/
theorem C7_stage_order_amended (inp : SimulationInputs) (hv : ValidInputs inp)
    (hen : inp.enable_co2_ph_stage = true)
    (hkla : 0 < klaCO2Eff inp) (hpct : 0 < inp.ph_gas_co2_percent)
    (hT : 0 < inp.temperature_c + 273.15) (hq12 : 1e-12 ≤ inp.flow_ml_min) :
    twoStageForwardFinal inp inp.c_co2_init_mmol_l ≠
      twoStageReverseFinal inp inp.c_co2_init_mmol_l := by
  set c0 := inp.c_co2_init_mmol_l with hc0def
  set k := klaCO2Eff inp with hkdef
  set t1 := stage1TauS inp with ht1def
  set t2 := stage2TauS inp with ht2def
  set e1 := Real.exp (-k * t1) with he1def
  set e2 := Real.exp (-k * t2) with he2def
  set g := cstarStage1 inp with hgdef
  set s := co2SupplyRate inp with hsdef
  set q := inp.flow_ml_min / 1000 with hqdef
  have hc0 : 0 ≤ c0 := valid_c_co2_init_nonneg hv
  have hg0 : 0 < g := cstarStage1_pos hv hpct
  have hs0 : 0 < s := co2SupplyRate_pos hv hT hpct
  have hq0 : 0 < q := by
    rw [hqdef]
    linarith [valid_flow_pos hv]
  have hqmax : max q 1e-15 = q := by
    apply max_eq_left
    rw [hqdef]
    linarith
  have he1a : 0 < e1 := Real.exp_pos _
  have he1b : e1 < 1 := by
    rw [he1def]
    apply Real.exp_lt_one_iff.mpr
    have := stage1TauS_pos hv
    nlinarith
  have he2a : 0 < e2 := Real.exp_pos _
  have he2b : e2 < 1 := by
    rw [he2def]
    apply Real.exp_lt_one_iff.mpr
    have := stage2TauS_pos hv
    nlinarith
  have hdo : ∀ c : ℝ, applyDoStage inp c = c * e2 := fun c => applyDoStage_eq inp c
  have hph : ∀ c : ℝ, applyPhStage inp c =
      (if max 0 ((g + (c - g) * e1 - c) * q) > s then c + s / q
       else g + (c - g) * e1) := by
    intro c
    rw [applyPhStage_expand hen c, hqmax]
  have hcap_iff : ∀ c : ℝ, (max 0 ((g + (c - g) * e1 - c) * q) > s) ↔
      ((g - c) * (1 - e1) * q > s) := by
    intro c
    have h1 : (g + (c - g) * e1 - c) * q = (g - c) * (1 - e1) * q := by ring
    rw [h1]
    exact max_zero_gt_iff hs0.le
  have hsq : 0 < s / q := div_pos hs0 hq0
  have hlt : twoStageForwardFinal inp c0 < twoStageReverseFinal inp c0 := by
    unfold twoStageForwardFinal twoStageReverseFinal
    rw [hdo, hdo]
    by_cases hcF : max 0 ((g + (c0 - g) * e1 - c0) * q) > s
    · -- the forward pH stage caps; then so does the reverse one
      have hcF' := (hcap_iff c0).mp hcF
      have hgc : c0 < g := by
        by_contra hcon
        push_neg at hcon
        nlinarith [mul_nonneg (mul_nonneg (sub_nonneg.mpr hcon)
          (by linarith : (0 : ℝ) ≤ 1 - e1)) hq0.le]
      have hcR : max 0 ((g + (c0 * e2 - g) * e1 - c0 * e2) * q) > s := by
        apply (hcap_iff (c0 * e2)).mpr
        have hmono : c0 * e2 ≤ c0 := by nlinarith
        have key : (g - c0) * (1 - e1) * q ≤ (g - c0 * e2) * (1 - e1) * q := by
          nlinarith [mul_nonneg (mul_nonneg (sub_nonneg.mpr hmono)
            (by linarith : (0 : ℝ) ≤ 1 - e1)) hq0.le]
        linarith
      rw [hph c0, hph (c0 * e2), if_pos hcF, if_pos hcR]
      nlinarith [mul_pos hsq (by linarith : (0 : ℝ) < 1 - e2)]
    · have hcF' : ¬ ((g - c0) * (1 - e1) * q > s) := fun h => hcF ((hcap_iff c0).mpr h)
      push_neg at hcF'
      rw [hph c0, hph (c0 * e2), if_neg hcF]
      by_cases hcR : max 0 ((g + (c0 * e2 - g) * e1 - c0 * e2) * q) > s
      · rw [if_pos hcR]
        have hdivle : (1 - e1) * (g - c0) ≤ s / q := by
          rw [le_div_iff₀ hq0]
          nlinarith
        nlinarith [mul_le_mul_of_nonneg_left hdivle he2a.le,
          mul_pos hsq (by linarith : (0 : ℝ) < 1 - e2)]
      · rw [if_neg hcR]
        nlinarith [mul_pos (mul_pos hg0 (by linarith : (0 : ℝ) < 1 - e2))
          (by linarith : (0 : ℝ) < 1 - e1)]
  exact ne_of_lt hlt

/-- C7 witness: the amended theorem at exPh (stage enabled, kla_co2 = 0.05). -/
theorem C7_stage_order_amended_witness :
    twoStageForwardFinal exPh exPh.c_co2_init_mmol_l ≠
      twoStageReverseFinal exPh exPh.c_co2_init_mmol_l := by
  have hv : ValidInputs exPh := by
    unfold ValidInputs validation_errors exPh exBase
    norm_num
    simp
  have hkla : 0 < klaCO2Eff exPh := by
    unfold klaCO2Eff
    rw [if_neg (by simp [exPh, exBase])]
    norm_num [exPh, exBase]
  exact C7_stage_order_amended exPh hv (by rfl) hkla (by norm_num [exPh, exBase])
    (by norm_num [exPh, exBase]) (by norm_num [exPh, exBase])

/-- C7 counterexample: with the stage enabled but kla_co2 = 0 (accepted by
validate_inputs, which only requires kla_co2 >= 0), both sub-stages are the
identity on dissolved CO2, so the two stage orders give the same final
outlet, refuting "for every valid input with the stage enabled". -/
theorem C7_counterexample :
    ValidInputs ce7 ∧ ce7.enable_co2_ph_stage = true ∧
    twoStageForwardFinal ce7 ce7.c_co2_init_mmol_l =
      twoStageReverseFinal ce7 ce7.c_co2_init_mmol_l := by
  have hval : ValidInputs ce7 := by
    unfold ValidInputs validation_errors ce7 exBase
    norm_num
    simp
  refine ⟨hval, by rfl, ?_⟩
  have hk : klaCO2Eff ce7 = 0 := by
    unfold klaCO2Eff
    rw [if_neg (by simp [ce7, exBase])]
    rfl
  have hdo : ∀ c : ℝ, applyDoStage ce7 c = c := by
    intro c
    rw [applyDoStage_eq, hk]
    simp
  have hs0 : 0 < co2SupplyRate ce7 := by
    unfold co2SupplyRate compute_gas_o2_supply_rate_mmol_min yCO2Stage1
    simp only [ce7, exBase]
    norm_num
  have hph : ∀ c : ℝ, applyPhStage ce7 c = c := by
    intro c
    rw [applyPhStage_expand (by rfl) c, hk]
    have h1 : cstarStage1 ce7 + (c - cstarStage1 ce7) * Real.exp (-0 * stage1TauS ce7) = c := by
      simp
    rw [h1]
    rw [if_neg ?_]
    push_neg
    have h2 : (c - c) * (ce7.flow_ml_min / 1000) = 0 := by ring
    rw [h2]
    simpa using hs0.le
  unfold twoStageForwardFinal twoStageReverseFinal
  rw [hdo, hph, hph, hdo]

/-
  Claim C10: gas-side invariants of the segmented loops.
-/

theorem yLocal_mem (gS gO : ℝ) : 0 ≤ yLocal gS gO ∧ yLocal gS gO ≤ 1 := by
  unfold yLocal
  constructor
  · exact le_max_left 0 _
  · apply max_le (by norm_num)
    exact min_le_left 1 _

theorem ratio_mem {a b : ℝ} (ha : 0 ≤ a) (hb : 0 ≤ b) :
    0 ≤ a / max (a + b) 1e-15 ∧ a / max (a + b) 1e-15 ≤ 1 := by
  have hpos : (0 : ℝ) < max (a + b) 1e-15 := lt_max_of_lt_right (by norm_num)
  constructor
  · exact div_nonneg ha hpos.le
  · rw [div_le_one hpos]
    calc a ≤ a + b := by linarith
      _ ≤ max (a + b) 1e-15 := le_max_left _ _

theorem segIter_nonneg {inp : SimulationInputs} (hv : ValidInputs inp)
    (hT : 0 < inp.temperature_c + 273.15) (cO2in cN2in : ℝ) :
    ∀ k, SegNonneg ((segNext inp cO2in cN2in)^[k] (segInit inp)) := by
  intro k
  induction k with
  | zero =>
    intro s
    exact ⟨nO2Inlet_nonneg hv hT, nN2Inlet_nonneg hv hT⟩
  | succ k ih =>
    rw [Function.iterate_succ_apply']
    intro s
    exact ⟨gasUpdate_nonneg (nO2Inlet_nonneg hv hT) _ _ _,
      gasUpdate_nonneg (nN2Inlet_nonneg hv hT) _ _ _⟩

theorem nCO2InletStage_nonneg {inp : SimulationInputs} (hv : ValidInputs inp)
    (hT : 0 < inp.temperature_c + 273.15) : 0 ≤ nCO2InletStage inp := by
  unfold nCO2InletStage yCO2Stage1
  have h1 := gasConc_pos hv hT
  have h2 := valid_ph_flow_pos hv
  have h3 := (valid_ph_pct_mem hv).1
  positivity

theorem nOtherInletStage_nonneg {inp : SimulationInputs} (hv : ValidInputs inp)
    (hT : 0 < inp.temperature_c + 273.15) : 0 ≤ nOtherInletStage inp := by
  unfold nOtherInletStage yCO2Stage1
  have h1 := gasConc_pos hv hT
  have h2 := valid_ph_flow_pos hv
  have h3 := (valid_ph_pct_mem hv).2
  have h4 : 0 ≤ 1 - inp.ph_gas_co2_percent / 100 := by linarith
  have h5 : 0 ≤ inp.ph_gas_flow_ml_min / 1000 * gasConcMmolL inp := by positivity
  exact mul_nonneg h5 h4

/-- Every state produced or threaded by co2Loop satisfies an invariant that
holds initially and is preserved by co2Next. -/
theorem co2Loop_inv (inp : SimulationInputs) (cin : ℝ) (n : ℕ) (P : Co2State → Prop)
    (hstep : ∀ st, P st → P (co2Next inp cin n st)) :
    ∀ fuel st, P st →
      P (co2Loop inp cin n fuel st).1 ∧ P (co2Loop inp cin n fuel st).2 := by
  intro fuel
  induction fuel with
  | zero => exact fun st h => ⟨h, h⟩
  | succ fuel ih =>
    intro st h
    rw [co2Loop]
    split
    · exact ⟨h, hstep st h⟩
    · exact ih _ (hstep st h)

theorem co2States_nonneg {inp : SimulationInputs} (hv : ValidInputs inp)
    (hT : 0 < inp.temperature_c + 273.15) (cin : ℝ) (n : ℕ) :
    (∀ s, 0 ≤ (co2ResultStates inp cin n).1.gCO2 s) ∧
    (∀ s, 0 ≤ (co2ResultStates inp cin n).2.gCO2 s) := by
  have h := co2Loop_inv inp cin n (fun st => ∀ s, 0 ≤ st.gCO2 s)
    (fun st _ s => gasUpdate_nonneg (nCO2InletStage_nonneg hv hT) _ _ _)
    50 (co2Init inp) (fun s => nCO2InletStage_nonneg hv hT)
  exact h

theorem co2Iter_nonneg {inp : SimulationInputs} (hv : ValidInputs inp)
    (hT : 0 < inp.temperature_c + 273.15) (cin : ℝ) (n : ℕ) :
    ∀ k s, 0 ≤ ((co2Next inp cin n)^[k] (co2Init inp)).gCO2 s := by
  intro k
  induction k with
  | zero => exact fun s => nCO2InletStage_nonneg hv hT
  | succ k ih =>
    rw [Function.iterate_succ_apply']
    exact fun s => gasUpdate_nonneg (nCO2InletStage_nonneg hv hT) _ _ _

/-- C10 (amended): for every valid input whose gas temperature is above
absolute zero (below it the inlet molar flows are negative and the reported
profile leaves [0,1] — validate_inputs does not check the temperature):
throughout the O2/N2 segmented loop every gas interface molar flow is
non-negative, every clamped local gas mole fraction lies in [0,1], the
returned interface flows are non-negative, and the reported axial and
outlet gas O2 mole fractions lie in [0,1]; likewise for the CO2 stage
variant, whose interface flows stay non-negative and whose local mole
fractions used for the reported cstar profile lie in [0,1]. -/
theorem C10_gas_invariants_amended (inp : SimulationInputs) (hv : ValidInputs inp)
    (hT : 0 < inp.temperature_c + 273.15) (cO2in cN2in cCO2in : ℝ) (n : ℕ) :
    (∀ k, SegNonneg ((segNext inp cO2in cN2in)^[k] (segInit inp))) ∧
    (∀ gS gO : ℝ, 0 ≤ yLocal gS gO ∧ yLocal gS gO ≤ 1) ∧
    SegNonneg (segResultStates inp cO2in cN2in).2 ∧
    (∀ s, 0 ≤ segGasProfileYO2 inp cO2in cN2in s ∧
      segGasProfileYO2 inp cO2in cN2in s ≤ 1) ∧
    (0 ≤ segGasOutYO2 inp cO2in cN2in ∧ segGasOutYO2 inp cO2in cN2in ≤ 1) ∧
    (∀ k s, 0 ≤ ((co2Next inp cCO2in n)^[k] (co2Init inp)).gCO2 s) ∧
    (∀ s, 0 ≤ (co2ResultStates inp cCO2in n).2.gCO2 s) ∧
    (∀ s, 0 ≤ co2ProfileYSeg inp cCO2in n s ∧ co2ProfileYSeg inp cCO2in n s ≤ 1) := by
  have hseg := segStates_nonneg hv hT cO2in cN2in
  have hco2 := co2States_nonneg hv hT cCO2in n
  refine ⟨segIter_nonneg hv hT cO2in cN2in, yLocal_mem, hseg.2, ?_, ?_,
    co2Iter_nonneg hv hT cCO2in n, hco2.2, ?_⟩
  · intro s
    unfold segGasProfileYO2
    exact ratio_mem (hseg.2 (s + 1)).1 (hseg.2 (s + 1)).2
  · unfold segGasOutYO2
    exact ratio_mem (hseg.2 0).1 (hseg.2 0).2
  · intro s
    unfold co2ProfileYSeg
    exact ratio_mem (hco2.2 (s + 1)) (nOtherInletStage_nonneg hv hT)

/-- C10 witness: the amended theorem at exSegW, reading off the first
reported profile bound. -/
theorem C10_gas_invariants_amended_witness :
    0 ≤ segGasProfileYO2 exSegW 0 0 0 ∧ segGasProfileYO2 exSegW 0 0 0 ≤ 1 := by
  have hv : ValidInputs exSegW := by
    unfold ValidInputs validation_errors exSegW exBase
    norm_num
    simp
  exact (C10_gas_invariants_amended exSegW hv (by norm_num [exSegW, exBase])
    0 0 0 2).2.2.2.1 0

/-- The final state of the loop is one segNext application ahead of the
state the returned liquid profile was computed from. -/
theorem segLoop_final_eq (inp : SimulationInputs) (cO2in cN2in : ℝ) :
    ∀ fuel st, 1 ≤ fuel →
      (segLoop inp cO2in cN2in fuel st).2 =
        segNext inp cO2in cN2in (segLoop inp cO2in cN2in fuel st).1 := by
  intro fuel
  induction fuel with
  | zero => intro st h; omega
  | succ fuel ih =>
    intro st _
    rw [segLoop]
    split
    · rfl
    · rename_i hcond
      have hfuel : 1 ≤ fuel := by
        rcases Nat.eq_zero_or_pos fuel with h0 | h1
        · exact absurd (Or.inl h0) hcond
        · exact h1
      exact ih _ hfuel

/-- C10 counterexample: at a validate-accepted negative absolute temperature
the inlet gas molar flows are negative; the returned axial gas profile of
the O2/N2 segmented solver then contains a negative "mole fraction". -/
theorem C10_counterexample :
    ValidInputs ce10 ∧ segGasProfileYO2 ce10 0.25 0 1 < 0 := by
  have hval : ValidInputs ce10 := by
    unfold ValidInputs validation_errors ce10 exBase
    norm_num
    simp
  refine ⟨hval, ?_⟩
  have hO2 : nO2InletMmolMin ce10 < -1 := by
    unfold nO2InletMmolMin totalGasMmolMin gasConcMmolL
    simp only [ce10, exBase]
    norm_num
  have hN2 : nN2InletMmolMin ce10 < -1 := by
    unfold nN2InletMmolMin totalGasMmolMin gasConcMmolL
    simp only [ce10, exBase]
    norm_num
  have hfin : (segResultStates ce10 0.25 0).2 =
      segNext ce10 0.25 0 (segResultStates ce10 0.25 0).1 :=
    segLoop_final_eq ce10 0.25 0 50 (segInit ce10) (by norm_num)
  have hn : ce10.n_segments = 2 := rfl
  have h11 : (1 + 1 : ℕ) = 2 := rfl
  have htop2 : (segResultStates ce10 0.25 0).2.gO2 (1 + 1) = nO2InletMmolMin ce10 := by
    rw [hfin]
    unfold segNext
    dsimp only
    rw [hn, h11]
    exact gasUpdate_top _ _ 2
  have htop2N : (segResultStates ce10 0.25 0).2.gN2 (1 + 1) = nN2InletMmolMin ce10 := by
    rw [hfin]
    unfold segNext
    dsimp only
    rw [hn, h11]
    exact gasUpdate_top _ _ 2
  unfold segGasProfileYO2
  dsimp only
  rw [htop2, htop2N]
  have hmax : max (nO2InletMmolMin ce10 + nN2InletMmolMin ce10) 1e-15 = 1e-15 :=
    max_eq_right (by linarith)
  rw [hmax]
  apply div_neg_of_neg_of_pos (by linarith) (by norm_num)

/-- C6 counterexample: a valid configuration with vessel turnover time 10 s,
for which clamp(1, tau/10, 30) = 1 s but the code's step is 7.2 s, refuting
"the step equals tau/10 bounded below by 1 second and above by 30 seconds,
with no other adjustment". -/
theorem C6_counterexample :
    ValidInputs ce6 ∧ estDtS ce6 ≠ min 30 (max 1 (estTauS ce6 / 10)) := by
  constructor
  · unfold ValidInputs validation_errors ce6 exBase
    norm_num
    simp
  · have htau : estTauS ce6 = 10 := by
      unfold estTauS ce6 exBase
      norm_num
    unfold estDtS
    rw [htau]
    norm_num

/-
  Claim C3: segmented versus lumped O2 outlet.
  General lemmas about the clamped local mole fraction, the gas rebuild
  under non-negative transfer, and the cap.
-/

theorem yLocal_eq {a b : ℝ} (ha : 0 ≤ a) (hb : 0 ≤ b) (hab : 1e-15 ≤ a + b) :
    yLocal a b = a / (a + b) := by
  unfold yLocal
  rw [max_eq_left hab]
  have hpos : (0 : ℝ) < a + b := lt_of_lt_of_le (by norm_num) hab
  have h1 : a / (a + b) ≤ 1 := by
    rw [div_le_one hpos]
    linarith
  rw [min_eq_right h1, max_eq_right (div_nonneg ha hpos.le)]

theorem yLocal_le {g t yo yn : ℝ} (hg0 : 0 ≤ g) (hgle : g ≤ t * yo)
    (hyo : 0 ≤ yo) (hyn : 0 ≤ yn) (hsum : yo + yn = 1) :
    yLocal g (t * yn) ≤ yo := by
  unfold yLocal
  apply max_le hyo
  refine le_trans (min_le_right 1 _) ?_
  have hkey : g ≤ yo * (g + t * yn) := by
    have h1 : g * yn ≤ t * yo * yn := mul_le_mul_of_nonneg_right hgle hyn
    nlinarith
  rcases le_or_lt 1e-15 (g + t * yn) with hcase | hcase
  · rw [max_eq_left hcase]
    rw [div_le_iff₀ (lt_of_lt_of_le (by norm_num) hcase)]
    linarith [hkey]
  · rw [max_eq_right hcase.le]
    rw [div_le_iff₀ (by norm_num)]
    have h3 : yo * (g + t * yn) ≤ yo * 1e-15 :=
      mul_le_mul_of_nonneg_left hcase.le hyo
    linarith

theorem yLocal_mono {g1 g2 b : ℝ} (h0 : 0 ≤ g1) (h12 : g1 ≤ g2) (hb : 0 ≤ b) :
    yLocal g1 b ≤ yLocal g2 b := by
  have hg2 : 0 ≤ g2 := le_trans h0 h12
  have key : g1 / max (g1 + b) 1e-15 ≤ g2 / max (g2 + b) 1e-15 := by
    rcases le_or_lt 1e-15 (g1 + b) with h1 | h1
    · have h2 : 1e-15 ≤ g2 + b := le_trans h1 (by linarith)
      rw [max_eq_left h1, max_eq_left h2]
      rw [div_le_div_iff₀ (by linarith) (by linarith)]
      nlinarith
    · rcases le_or_lt 1e-15 (g2 + b) with h2 | h2
      · rw [max_eq_right h1.le, max_eq_left h2]
        rw [div_le_div_iff₀ (by norm_num) (by linarith)]
        nlinarith [mul_le_mul_of_nonneg_right h12 hb,
          mul_le_mul_of_nonneg_left h1.le hg2]
      · rw [max_eq_right h1.le, max_eq_right h2.le]
        gcongr
  unfold yLocal
  exact max_le_max le_rfl (min_le_min le_rfl key)

theorem gasDown_succ_le {inlet : ℝ} (h0 : 0 ≤ inlet) {tr : ℕ → ℝ}
    (htr : ∀ s, 0 ≤ tr s) (n k : ℕ) :
    gasDown inlet tr n (k + 1) ≤ gasDown inlet tr n k := by
  show max 0 (gasDown inlet tr n k - tr (n - (k + 1))) ≤ _
  exact max_le (gasDown_nonneg h0 tr n k) (by linarith [htr (n - (k + 1))])

theorem gasDown_le_of_le {inlet : ℝ} (h0 : 0 ≤ inlet) {tr : ℕ → ℝ}
    (htr : ∀ s, 0 ≤ tr s) (n : ℕ) :
    ∀ k1 k2, k1 ≤ k2 → gasDown inlet tr n k2 ≤ gasDown inlet tr n k1 := by
  intro k1 k2 h
  induction k2 with
  | zero =>
    have h0' : k1 = 0 := Nat.le_zero.mp h
    rw [h0']
  | succ k2 ih =>
    rcases Nat.lt_or_ge k1 (k2 + 1) with hlt | hge
    · exact le_trans (gasDown_succ_le h0 htr n k2) (ih (Nat.lt_succ_iff.mp hlt))
    · rw [le_antisymm h hge]

theorem gasUpdate_mono {inlet : ℝ} (h0 : 0 ≤ inlet) {tr : ℕ → ℝ}
    (htr : ∀ s, 0 ≤ tr s) (n : ℕ) :
    ∀ s1 s2, s1 ≤ s2 → gasUpdate inlet tr n s1 ≤ gasUpdate inlet tr n s2 := by
  intro s1 s2 h
  exact gasDown_le_of_le h0 htr n (n - s2) (n - s1) (Nat.sub_le_sub_left h n)

theorem gasUpdate_le_inlet {inlet : ℝ} (h0 : 0 ≤ inlet) {tr : ℕ → ℝ}
    (htr : ∀ s, 0 ≤ tr s) (n s : ℕ) :
    gasUpdate inlet tr n s ≤ inlet :=
  gasDown_le_of_le h0 htr n 0 (n - s) (Nat.zero_le _)

theorem gasUpdate_const {inlet : ℝ} (h0 : 0 ≤ inlet) {tr : ℕ → ℝ}
    (htr : ∀ s, tr s = 0) (n : ℕ) : ∀ s, gasUpdate inlet tr n s = inlet := by
  have hdown : ∀ k, gasDown inlet tr n k = inlet := by
    intro k
    induction k with
    | zero => rfl
    | succ k ih =>
      show max 0 (gasDown inlet tr n k - tr (n - (k + 1))) = inlet
      rw [ih, htr, sub_zero, max_eq_right h0]
  intro s
  exact hdown (n - s)

/-- With the divisor guard inactive (q at least the 1e-15 floor), the capped
per-segment concentration change never exceeds the raw one when the gas is
non-negative. -/
theorem segDc_le_raw {sol p a q c gS gO : ℝ} (hq : 1e-15 ≤ q) (hgS : 0 ≤ gS) :
    segDc sol p a q c gS gO ≤ segDcRaw sol p a c gS gO := by
  unfold segDc
  split
  case isTrue hcap =>
    unfold segCapHit at hcap
    have hqpos : (0 : ℝ) < q := lt_of_lt_of_le (by norm_num) hq
    rw [max_eq_left hq]
    rw [div_le_iff₀ hqpos]
    linarith [hcap.le]
  case isFalse hcap => exact le_rfl

/-- With non-negative raw change and non-negative gas, the per-segment
change and transferred amount are non-negative and the transfer is bounded
by the available gas. -/
theorem segTr_bounds {sol p a q c gS gO : ℝ} (hq : 1e-15 ≤ q) (hgS : 0 ≤ gS)
    (hraw : 0 ≤ segDcRaw sol p a c gS gO) :
    0 ≤ segDc sol p a q c gS gO ∧ 0 ≤ segTrAmt sol p a q c gS gO ∧
      segTrAmt sol p a q c gS gO ≤ gS := by
  have hqpos : (0 : ℝ) < q := lt_of_lt_of_le (by norm_num) hq
  unfold segDc segTrAmt
  split
  case isTrue hcap =>
    refine ⟨?_, hgS, le_rfl⟩
    rw [max_eq_left hq]
    positivity
  case isFalse hcap =>
    unfold segCapHit at hcap
    push_neg at hcap
    exact ⟨hraw, by positivity, hcap⟩

theorem yLocal_nonneg (g b : ℝ) : 0 ≤ yLocal g b := le_max_left 0 _

theorem yLocal_le_one (g b : ℝ) : yLocal g b ≤ 1 :=
  max_le (by norm_num) (min_le_left 1 _)

theorem cstarLocal_nonneg {sol p : ℝ} (hsol : 0 ≤ sol) (hp : 0 ≤ p) {g b : ℝ} :
    0 ≤ cstarLocal sol p g b :=
  mul_nonneg (mul_nonneg hsol (yLocal_nonneg g b)) hp

theorem cstarLocal_mono {sol p g1 g2 b : ℝ} (hsol : 0 ≤ sol) (hp : 0 ≤ p)
    (h0 : 0 ≤ g1) (h12 : g1 ≤ g2) (hb : 0 ≤ b) :
    cstarLocal sol p g1 b ≤ cstarLocal sol p g2 b := by
  unfold cstarLocal
  nlinarith [mul_le_mul_of_nonneg_left (yLocal_mono h0 h12 hb) (mul_nonneg hsol hp)]

/-- Unfolding equation of the liquid pass at a successor boundary. -/
theorem liqProfile_succ (sol p a q cin : ℝ) (gS gO : ℕ → ℝ) (s : ℕ) :
    liqProfile sol p a q cin gS gO (s + 1) =
      liqProfile sol p a q cin gS gO s +
        segDc sol p a q (liqProfile sol p a q cin gS gO s) (gS (s + 1)) (gO (s + 1)) := by
  rw [liqProfile]

theorem liqProfile_zero (sol p a q cin : ℝ) (gS gO : ℕ → ℝ) :
    liqProfile sol p a q cin gS gO 0 = cin := rfl

/-- With a zero transfer factor and non-negative own gas, the per-segment
transferred amount is zero: the raw change vanishes and so does the cap. -/
theorem segTrAmt_zero_of_a_zero {sol p q c gS gO : ℝ} (hg : 0 ≤ gS) :
    segTrAmt sol p 0 q c gS gO = 0 := by
  have hraw : segDcRaw sol p 0 c gS gO = 0 := by
    unfold segDcRaw
    ring
  have hcap : ¬ segCapHit sol p 0 q c gS gO := by
    unfold segCapHit
    rw [hraw]
    push_neg
    simpa using hg
  unfold segTrAmt
  rw [if_neg hcap, hraw, zero_mul]

/-- Domination invariant of one inert-other-gas liquid pass from inlet 0:
the liquid stays non-negative, below the local equilibrium of the interface
it reaches next, and below the closed-form bound with per-segment factor a
(the other gas is pinned at T * yn, the own gas bounded by T * yo and
monotone toward the gas inlet). -/
theorem liqProfile_dom {sol p a q T yo yn : ℝ} {gS gO : ℕ → ℝ}
    (hsol : 0 ≤ sol) (hp : 0 ≤ p) (ha0 : 0 ≤ a) (ha1 : a ≤ 1)
    (hq : 1e-15 ≤ q) (hT : 0 ≤ T) (hyo : 0 ≤ yo) (hyn : 0 ≤ yn)
    (hsum : yo + yn = 1) (hgO : ∀ s, gO s = T * yn)
    (hg0 : ∀ s, 0 ≤ gS s) (hgle : ∀ s, gS s ≤ T * yo)
    (hgmono : ∀ s1 s2, s1 ≤ s2 → gS s1 ≤ gS s2) :
    ∀ s, 0 ≤ liqProfile sol p a q 0 gS gO s ∧
      liqProfile sol p a q 0 gS gO s ≤ cstarLocal sol p (gS (s + 1)) (gO (s + 1)) ∧
      liqProfile sol p a q 0 gS gO s ≤ sol * (yo * p) * (1 - (1 - a) ^ s) := by
  intro s
  induction s with
  | zero =>
    refine ⟨le_refl 0, cstarLocal_nonneg hsol hp, ?_⟩
    simp [liqProfile]
  | succ s ih =>
    obtain ⟨ih0, ihcl, ihD⟩ := ih
    have hraw : 0 ≤ segDcRaw sol p a (liqProfile sol p a q 0 gS gO s)
        (gS (s + 1)) (gO (s + 1)) := by
      unfold segDcRaw
      exact mul_nonneg (by linarith) ha0
    obtain ⟨hdc0, htr0, htrle⟩ := segTr_bounds hq (hg0 (s + 1)) hraw
    have hdcle : segDc sol p a q (liqProfile sol p a q 0 gS gO s)
        (gS (s + 1)) (gO (s + 1)) ≤
        segDcRaw sol p a (liqProfile sol p a q 0 gS gO s)
          (gS (s + 1)) (gO (s + 1)) := segDc_le_raw hq (hg0 (s + 1))
    have hclle : cstarLocal sol p (gS (s + 1)) (gO (s + 1)) ≤ sol * (yo * p) := by
      rw [hgO (s + 1)]
      unfold cstarLocal
      have hyle := yLocal_le (hg0 (s + 1)) (hgle (s + 1)) hyo hyn hsum
      nlinarith [mul_le_mul_of_nonneg_left hyle (mul_nonneg hsol hp)]
    have hclmono : cstarLocal sol p (gS (s + 1)) (gO (s + 1)) ≤
        cstarLocal sol p (gS (s + 1 + 1)) (gO (s + 1 + 1)) := by
      rw [hgO (s + 1), hgO (s + 1 + 1)]
      exact cstarLocal_mono hsol hp (hg0 (s + 1))
        (hgmono (s + 1) (s + 1 + 1) (by omega)) (mul_nonneg hT hyn)
    rw [liqProfile_succ]
    refine ⟨by linarith, ?_, ?_⟩
    · have hstep1 : liqProfile sol p a q 0 gS gO s +
          segDcRaw sol p a (liqProfile sol p a q 0 gS gO s) (gS (s + 1)) (gO (s + 1)) ≤
          cstarLocal sol p (gS (s + 1)) (gO (s + 1)) := by
        unfold segDcRaw
        nlinarith [mul_nonneg (sub_nonneg.mpr ihcl) (by linarith : (0:ℝ) ≤ 1 - a)]
      linarith
    · rw [pow_succ]
      have hkey : liqProfile sol p a q 0 gS gO s +
          segDcRaw sol p a (liqProfile sol p a q 0 gS gO s) (gS (s + 1)) (gO (s + 1)) ≤
          sol * (yo * p) * (1 - (1 - a) ^ s * (1 - a)) := by
        unfold segDcRaw
        nlinarith [mul_le_mul_of_nonneg_right ihD (by linarith : (0:ℝ) ≤ 1 - a),
          mul_le_mul_of_nonneg_left hclle ha0]
      linarith

/-- Under the domination hypotheses every per-segment transferred amount of
the pass from inlet 0 is non-negative. -/
theorem liqTransfer_dom_nonneg {sol p a q T yo yn : ℝ} {gS gO : ℕ → ℝ}
    (hsol : 0 ≤ sol) (hp : 0 ≤ p) (ha0 : 0 ≤ a) (ha1 : a ≤ 1)
    (hq : 1e-15 ≤ q) (hT : 0 ≤ T) (hyo : 0 ≤ yo) (hyn : 0 ≤ yn)
    (hsum : yo + yn = 1) (hgO : ∀ s, gO s = T * yn)
    (hg0 : ∀ s, 0 ≤ gS s) (hgle : ∀ s, gS s ≤ T * yo)
    (hgmono : ∀ s1 s2, s1 ≤ s2 → gS s1 ≤ gS s2) (s : ℕ) :
    0 ≤ liqTransfer sol p a q 0 gS gO s := by
  have h := liqProfile_dom hsol hp ha0 ha1 hq hT hyo hyn hsum hgO hg0 hgle hgmono s
  have hraw : 0 ≤ segDcRaw sol p a (liqProfile sol p a q 0 gS gO s)
      (gS (s + 1)) (gO (s + 1)) := by
    unfold segDcRaw
    exact mul_nonneg (by linarith [h.2.1]) ha0
  unfold liqTransfer
  exact (segTr_bounds hq (hg0 (s + 1)) hraw).2.1

/-- The per-segment O2 transfer factor lies in [0, 1] for valid inputs. -/
theorem aO2_mem {inp : SimulationInputs} (hv : ValidInputs inp) :
    0 ≤ aO2 inp ∧ aO2 inp ≤ 1 := by
  have hd : 0 ≤ dtSegS inp := by
    unfold dtSegS
    exact div_nonneg (residenceTimeS_pos hv).le (Nat.cast_nonneg _)
  have hk := klaO2Eff_nonneg hv
  constructor
  · unfold aO2
    have h2 : Real.exp (-klaO2Eff inp * dtSegS inp) ≤ Real.exp 0 :=
      Real.exp_le_exp.mpr (by nlinarith)
    rw [Real.exp_zero] at h2
    linarith
  · unfold aO2
    have := Real.exp_pos (-klaO2Eff inp * dtSegS inp)
    linarith

/-- The initial gas state of the loop satisfies the domination invariant. -/
theorem segDominated_init {inp : SimulationInputs} (h : 0 ≤ nO2InletMmolMin inp) :
    segDominated inp (segInit inp) := by
  unfold segDominated segInit
  exact ⟨fun _ => rfl, fun _ => h, fun _ => le_rfl, fun _ _ _ => le_rfl⟩

/-- One fixed-point iteration, run from O2 inlet concentration 0 under an
inert N2 (zero effective kLa_N2), preserves the domination invariant. -/
theorem segDominated_step {inp : SimulationInputs} (cN2in : ℝ)
    (hv : ValidInputs inp) (hkn : klaN2Eff inp = 0)
    (hy : inp.y_o2 + inp.y_n2 = 1) (hT : 0 < inp.temperature_c + 273.15)
    (hq : 1e-12 ≤ inp.flow_ml_min) (st : SegState)
    (hst : segDominated inp st) : segDominated inp (segNext inp 0 cN2in st) := by
  obtain ⟨hpin, h0, hle, hmono⟩ := hst
  have hO2in := nO2Inlet_nonneg hv hT
  have hN2in := nN2Inlet_nonneg hv hT
  have hq15 : (1e-15 : ℝ) ≤ qLiqLMin inp := by
    unfold qLiqLMin
    linarith
  have ha := aO2_mem hv
  have hTg : 0 ≤ totalGasMmolMin inp := by
    have h1 := gasConc_pos hv hT
    have h2 := valid_gas_flow_pos hv
    unfold totalGasMmolMin
    positivity
  have hsol : (0:ℝ) ≤ constSol ("O2") := by
    unfold constSol
    norm_num
  have htr : ∀ s, 0 ≤ o2PassTr inp 0 st s := by
    intro s
    unfold o2PassTr
    exact liqTransfer_dom_nonneg hsol (valid_p_pos hv).le ha.1 ha.2 hq15 hTg
      (valid_y_o2_mem hv).1 (valid_y_n2_mem hv).1 hy (fun k => hpin k)
      h0 hle hmono s
  have htrN2 : ∀ s, n2PassTr inp cN2in st s = 0 := by
    have haN2 : aN2 inp = 0 := aN2_zero hkn
    intro s
    unfold n2PassTr liqTransfer
    rw [haN2]
    apply segTrAmt_zero_of_a_zero
    rw [hpin (s + 1)]
    exact hN2in
  unfold segDominated segNext
  dsimp only
  refine ⟨?_, ?_, ?_, ?_⟩
  · intro s
    exact gasUpdate_const hN2in htrN2 inp.n_segments s
  · intro s
    exact gasUpdate_nonneg hO2in _ _ _
  · intro s
    exact gasUpdate_le_inlet hO2in htr inp.n_segments s
  · exact gasUpdate_mono hO2in htr inp.n_segments

set_option maxHeartbeats 400000 in
/-- C3 (amended): the claimed inequality fails in general (see the
counterexample: a desorbing inlet enriches the counterflow gas and the
segmented outlet exceeds the lumped one), but it holds in the absorption
regime the spec describes.  For every valid segmented-mode input with an
inert N2 stream (effective kLa_N2 = 0), exactly complementary gas fractions,
gas temperature above absolute zero, liquid flow at least 1e-12 mL/min, zero
inlet O2 concentration and a lumped cap that cannot engage
(Cstar_O2 * liquidFlow at most the O2 supply rate), the segmented outlet O2
concentration is at most the lumped-mode outlet of the same input with the
gas-liquid selector switched to lumped.  Moreover (second conjunct,
unconditionally in the last executed iteration): whenever a per-segment
gas-supply cap engages in the returned pass, the solver reports the
transfer-limited flag. -/
theorem C3_segmented_le_lumped_amended (inp : SimulationInputs) (cN2in : ℝ)
    (hv : ValidInputs inp) (hmode : inp.gas_liquid_model = ("segmented"))
    (hkn : klaN2Eff inp = 0) (hy : inp.y_o2 + inp.y_n2 = 1)
    (hT : 0 < inp.temperature_c + 273.15) (hq : 1e-12 ≤ inp.flow_ml_min)
    (hcap : cstarO2 inp * qLiqLMin inp ≤ o2SupplyRate inp) :
    (compute_single_pass_steady_outlet inp 0 cN2in).out_o2 ≤
      (compute_single_pass_steady_outlet
        { inp with gas_liquid_model := ("lumped") } 0 cN2in).out_o2 ∧
    ∀ cO2in cN2in2,
      passCapHit inp cO2in cN2in2 (segResultStates inp cO2in cN2in2).1 →
      segLimited inp cO2in cN2in2 := by
  constructor
  · rw [steady_segmented hmode, steady_lumped rfl]
    show segOutO2 inp 0 cN2in ≤ lumpedOutO2 { inp with gas_liquid_model := ("lumped") } 0
    have hlumeq : lumpedOutO2 { inp with gas_liquid_model := ("lumped") } 0 =
        lumpedOutO2 inp 0 := rfl
    rw [hlumeq]
    have hprev : segDominated inp (segResultStates inp 0 cN2in).1 :=
      (segLoop_inv inp 0 cN2in (segDominated inp)
        (fun st h => segDominated_step cN2in hv hkn hy hT hq st h) 50 (segInit inp)
        (segDominated_init (nO2Inlet_nonneg hv hT))).1
    obtain ⟨hpin, h0, hle, hmono⟩ := hprev
    have hq15 : (1e-15 : ℝ) ≤ qLiqLMin inp := by
      unfold qLiqLMin
      linarith
    have ha := aO2_mem hv
    have hTg : 0 ≤ totalGasMmolMin inp := by
      have h1 := gasConc_pos hv hT
      have h2 := valid_gas_flow_pos hv
      unfold totalGasMmolMin
      positivity
    have hsol : (0:ℝ) ≤ constSol ("O2") := by
      unfold constSol
      norm_num
    have hbound := (liqProfile_dom hsol (valid_p_pos hv).le ha.1 ha.2 hq15 hTg
      (valid_y_o2_mem hv).1 (valid_y_n2_mem hv).1 hy (fun k => hpin k)
      h0 hle hmono inp.n_segments).2.2
    have hseg : segOutO2 inp 0 cN2in ≤
        cstarO2 inp * (1 - (1 - aO2 inp) ^ inp.n_segments) := hbound
    have hn2 : 2 ≤ inp.n_segments := valid_nseg hv hmode
    have hnR : (0:ℝ) < (inp.n_segments : ℝ) := by
      have h1 : 0 < inp.n_segments := by omega
      exact_mod_cast h1
    have h1a : 1 - aO2 inp = Real.exp (-klaO2Eff inp * dtSegS inp) := by
      unfold aO2
      ring
    have hpow : (1 - aO2 inp) ^ inp.n_segments =
        Real.exp (-klaO2Eff inp * residenceTimeS inp) := by
      have harg : (inp.n_segments : ℝ) * (-klaO2Eff inp * dtSegS inp) =
          -klaO2Eff inp * residenceTimeS inp := by
        unfold dtSegS
        field_simp
        ring
      rw [h1a, ← Real.exp_nat_mul, harg]
    have hEpos := Real.exp_pos (-klaO2Eff inp * residenceTimeS inp)
    have hE1 : Real.exp (-klaO2Eff inp * residenceTimeS inp) ≤ 1 := by
      have h2 := klaO2Eff_nonneg hv
      have h3 := (residenceTimeS_pos hv).le
      calc Real.exp (-klaO2Eff inp * residenceTimeS inp) ≤ Real.exp 0 :=
            Real.exp_le_exp.mpr (by nlinarith)
        _ = 1 := Real.exp_zero
    have hraw0 : lumpedRawO2 inp 0 =
        cstarO2 inp * (1 - Real.exp (-klaO2Eff inp * residenceTimeS inp)) := by
      unfold lumpedRawO2 compute_single_pass_outlet_concentration
      ring
    have hcs0 := cstarO2_nonneg hv
    have hq0 := (qLiq_pos hv).le
    have hnl : ¬ lumpedLimited inp 0 := by
      unfold lumpedLimited
      push_neg
      rw [hraw0]
      apply max_le
      · nlinarith [mul_nonneg hcs0 hq0]
      · nlinarith [mul_nonneg (mul_nonneg hcs0 hq0) hEpos.le]
    have hlout : lumpedOutO2 inp 0 = lumpedRawO2 inp 0 := by
      unfold lumpedOutO2
      rw [if_neg hnl]
    rw [hlout, hraw0, ← hpow]
    exact hseg
  · intro c1 c2 hcaphit
    have hfin : (segResultStates inp c1 c2).2 =
        segNext inp c1 c2 (segResultStates inp c1 c2).1 :=
      segLoop_final_eq inp c1 c2 50 (segInit inp) (by norm_num)
    show (segResultStates inp c1 c2).2.limited
    rw [hfin]
    unfold segNext
    dsimp only
    exact Or.inr hcaphit

/-- C3 witness: the amended theorem at exSeg (segmented, inert N2, three
segments) with zero inlet concentrations. -/
theorem C3_segmented_le_lumped_amended_witness :
    (compute_single_pass_steady_outlet exSeg 0 0).out_o2 ≤
      (compute_single_pass_steady_outlet
        { exSeg with gas_liquid_model := ("lumped") } 0 0).out_o2 :=
  (C3_segmented_le_lumped_amended exSeg 0
    (by unfold ValidInputs validation_errors exSeg exBase; norm_num; simp)
    rfl
    (by unfold klaN2Eff; rw [if_neg (by simp [exSeg, exBase])]; rfl)
    (by norm_num [exSeg, exBase])
    (by norm_num [exSeg, exBase])
    (by norm_num [exSeg, exBase])
    (by unfold cstarO2 compute_equilibrium_concentrations constSol qLiqLMin
          o2SupplyRate compute_gas_o2_supply_rate_mmol_min
        simp only [exSeg, exBase]
        norm_num)).1

/-
  C3 counterexample: at ce3seg (desorbing inlet, inert N2, 2 segments) the
  gas stream gets enriched in O2 along the tube, the local equilibrium at
  the liquid outlet rises above the lumped one, and the segmented outlet
  strictly exceeds the lumped outlet.
-/

theorem o2Pass_succ (inp : SimulationInputs) (cin : ℝ) (st : SegState) (s : ℕ) :
    o2Pass inp cin st (s + 1) = o2Pass inp cin st s +
      segDc (constSol ("O2")) inp.p_total_kpa (aO2 inp) (qLiqLMin inp)
        (o2Pass inp cin st s) (st.gO2 (s + 1)) (st.gN2 (s + 1)) := by
  unfold o2Pass
  exact liqProfile_succ _ _ _ _ _ _ _ s

theorem o2Pass_zero (inp : SimulationInputs) (cin : ℝ) (st : SegState) :
    o2Pass inp cin st 0 = cin := rfl

theorem o2PassTr_eq (inp : SimulationInputs) (cin : ℝ) (st : SegState) (s : ℕ) :
    o2PassTr inp cin st s =
      segTrAmt (constSol ("O2")) inp.p_total_kpa (aO2 inp) (qLiqLMin inp)
        (o2Pass inp cin st s) (st.gO2 (s + 1)) (st.gN2 (s + 1)) := rfl

theorem c3_q : qLiqLMin ce3seg = 0.01 := by
  unfold qLiqLMin
  simp only [ce3seg, exBase]
  norm_num

theorem c3_sol : constSol ("O2") = 0.0128 := by
  norm_num [constSol]

theorem c3_nO2 : 0.00211 ≤ nO2InletMmolMin ce3seg ∧ nO2InletMmolMin ce3seg ≤ 0.00212 := by
  unfold nO2InletMmolMin totalGasMmolMin gasConcMmolL
  simp only [ce3seg, exBase]
  norm_num

theorem c3_nN2 : 0.00796 ≤ nN2InletMmolMin ce3seg ∧ nN2InletMmolMin ce3seg ≤ 0.00797 := by
  unfold nN2InletMmolMin totalGasMmolMin gasConcMmolL
  simp only [ce3seg, exBase]
  norm_num

theorem c3_klaO2 : klaO2Eff ce3seg = 0.006 := by
  unfold klaO2Eff
  rw [if_neg (by simp [ce3seg, exBase])]
  rfl

theorem c3_res : residenceTimeS ce3seg = 24.576 * Real.pi := by
  unfold residenceTimeS compute_residence_time_s tubeVolumeMl compute_tube_volume_ml
  simp only [ce3seg, exBase]
  ring

theorem c3_dtSeg : dtSegS ce3seg = 12.288 * Real.pi := by
  unfold dtSegS
  rw [c3_res, show ce3seg.n_segments = 2 from rfl]
  push_cast
  ring

theorem c3_aO2_eq : aO2 ce3seg = 1 - Real.exp (-(0.073728 * Real.pi)) := by
  unfold aO2
  rw [c3_klaO2, c3_dtSeg]
  have harg : -(0.006 : ℝ) * (12.288 * Real.pi) = -(0.073728 * Real.pi) := by ring
  rw [harg]

theorem c3_e1_bounds : 0.76837 ≤ Real.exp (-(0.073728 * Real.pi)) ∧
    Real.exp (-(0.073728 * Real.pi)) ≤ 0.812 := by
  have hpi1 := Real.pi_gt_d6
  have hpi2 := Real.pi_lt_d6
  have ht1 : (0.23162 : ℝ) < 0.073728 * Real.pi := by nlinarith
  have ht2 : 0.073728 * Real.pi < 0.23163 := by nlinarith
  constructor
  · have h := Real.add_one_le_exp (-(0.073728 * Real.pi))
    linarith
  · have h1 := Real.add_one_le_exp (0.073728 * Real.pi)
    have h3 : Real.exp (-(0.073728 * Real.pi)) =
        (Real.exp (0.073728 * Real.pi))⁻¹ := by
      rw [← Real.exp_neg]
    have h4 : (Real.exp (0.073728 * Real.pi))⁻¹ ≤ (1 + 0.073728 * Real.pi)⁻¹ :=
      inv_anti₀ (by linarith) (by linarith)
    have h5 : (1 + 0.073728 * Real.pi)⁻¹ ≤ ((1.23162 : ℝ))⁻¹ :=
      inv_anti₀ (by norm_num) (by linarith)
    have h6 : ((1.23162 : ℝ))⁻¹ ≤ 0.812 := by norm_num
    rw [h3]
    linarith

theorem c3_a_bounds : 0.188 ≤ aO2 ce3seg ∧ aO2 ce3seg ≤ 0.23163 := by
  rw [c3_aO2_eq]
  have h := c3_e1_bounds
  exact ⟨by linarith [h.2], by linarith [h.1]⟩

/-- The local O2 equilibrium at the gas-inlet interface of ce3seg is the
global one: the inlet mole fractions sum exactly to one. -/
theorem c3_cstar_top : cstarLocal (constSol ("O2")) 50 (nO2InletMmolMin ce3seg)
    (nN2InletMmolMin ce3seg) = 0.1344 := by
  have hO2b := c3_nO2
  have hN2b := c3_nN2
  unfold cstarLocal
  rw [c3_sol]
  have hy : yLocal (nO2InletMmolMin ce3seg) (nN2InletMmolMin ce3seg) = 0.21 := by
    rw [yLocal_eq (by linarith [hO2b.1]) (by linarith [hN2b.1])
      (by linarith [hO2b.1, hN2b.1])]
    unfold nO2InletMmolMin nN2InletMmolMin totalGasMmolMin gasConcMmolL
    simp only [ce3seg, exBase]
    norm_num
  rw [hy]
  norm_num

set_option maxHeartbeats 1600000 in
/-- One liquid pass of ce3seg from inlet 1, run from a gas state with the N2
interfaces pinned at the inlet and the right O2 interface at the inlet: exact
formulas and interval bounds for the boundary-1 value, the outlet, and the
segment-1 transferred amount (no gas-supply cap fires: the inlet desorbs). -/
theorem c3_pass (st : SegState)
    (hpin1 : st.gN2 1 = nN2InletMmolMin ce3seg)
    (hpin2 : st.gN2 (1 + 1) = nN2InletMmolMin ce3seg)
    (htop : st.gO2 (1 + 1) = nO2InletMmolMin ce3seg)
    (hpos : 0 < st.gO2 1) :
    o2Pass ce3seg 1 st 1 =
      1 + (0.64 * yLocal (st.gO2 1) (st.gN2 1) - 1) * aO2 ce3seg ∧
    0.7683 ≤ o2Pass ce3seg 1 st 1 ∧ o2Pass ce3seg 1 st 1 ≤ 0.93233 ∧
    o2Pass ce3seg 1 st (1 + 1) =
      o2Pass ce3seg 1 st 1 + (0.1344 - o2Pass ce3seg 1 st 1) * aO2 ce3seg ∧
    -0.00185 ≤ o2PassTr ce3seg 1 st 1 ∧ o2PassTr ce3seg 1 st 1 ≤ -0.00119 := by
  have ha := c3_a_bounds
  have hO2b := c3_nO2
  have hp50 : ce3seg.p_total_kpa = 50 := rfl
  set y := yLocal (st.gO2 1) (st.gN2 1) with hy
  have hy0 : 0 ≤ y := le_max_left 0 _
  have hy1 : y ≤ 1 := by
    rw [hy]
    exact yLocal_le_one _ _
  have hcs1 : cstarLocal (constSol ("O2")) ce3seg.p_total_kpa (st.gO2 1) (st.gN2 1) =
      0.64 * y := by
    unfold cstarLocal
    rw [← hy, c3_sol, hp50]
    ring
  have hraw1 : segDcRaw (constSol ("O2")) ce3seg.p_total_kpa (aO2 ce3seg) 1
      (st.gO2 1) (st.gN2 1) = (0.64 * y - 1) * aO2 ce3seg := by
    unfold segDcRaw
    rw [hcs1]
  have hrawneg1 : segDcRaw (constSol ("O2")) ce3seg.p_total_kpa (aO2 ce3seg) 1
      (st.gO2 1) (st.gN2 1) < 0 := by
    rw [hraw1]
    have h1 : 0.64 * y - 1 < 0 := by nlinarith [hy1]
    have h2 : (0:ℝ) < aO2 ce3seg := by linarith [ha.1]
    nlinarith [mul_pos (neg_pos.mpr h1) h2]
  have hnocap1 : ¬ segCapHit (constSol ("O2")) ce3seg.p_total_kpa (aO2 ce3seg)
      (qLiqLMin ce3seg) 1 (st.gO2 1) (st.gN2 1) := by
    unfold segCapHit
    push_neg
    rw [c3_q]
    linarith [hrawneg1, hpos]
  have h0 := o2Pass_succ ce3seg 1 st 0
  rw [Nat.zero_add] at h0
  rw [o2Pass_zero] at h0
  have hc1 : o2Pass ce3seg 1 st 1 =
      1 + (0.64 * y - 1) * aO2 ce3seg := by
    rw [h0]
    unfold segDc
    rw [if_neg hnocap1, hraw1]
  have hc1b : 0.7683 ≤ o2Pass ce3seg 1 st 1 ∧ o2Pass ce3seg 1 st 1 ≤ 0.93233 := by
    have hpu : aO2 ce3seg * (1 - 0.64 * y) ≤ 0.23163 * 1 :=
      mul_le_mul ha.2 (by nlinarith [hy0]) (by nlinarith [hy1]) (by norm_num)
    have hpl : 0.188 * 0.36 ≤ aO2 ce3seg * (1 - 0.64 * y) :=
      mul_le_mul ha.1 (by nlinarith [hy1]) (by norm_num) (by linarith [ha.1])
    rw [hc1]
    constructor
    · nlinarith [hpu]
    · nlinarith [hpl]
  have hcs2 : cstarLocal (constSol ("O2")) ce3seg.p_total_kpa (st.gO2 (1 + 1))
      (st.gN2 (1 + 1)) = 0.1344 := by
    rw [htop, hpin2, hp50]
    exact c3_cstar_top
  have hraw2 : segDcRaw (constSol ("O2")) ce3seg.p_total_kpa (aO2 ce3seg)
      (o2Pass ce3seg 1 st 1) (st.gO2 (1 + 1)) (st.gN2 (1 + 1)) =
      (0.1344 - o2Pass ce3seg 1 st 1) * aO2 ce3seg := by
    unfold segDcRaw
    rw [hcs2]
  have hrawneg2 : segDcRaw (constSol ("O2")) ce3seg.p_total_kpa (aO2 ce3seg)
      (o2Pass ce3seg 1 st 1) (st.gO2 (1 + 1)) (st.gN2 (1 + 1)) < 0 := by
    rw [hraw2]
    have h1 : 0.1344 - o2Pass ce3seg 1 st 1 < 0 := by linarith [hc1b.1]
    have h2 : (0:ℝ) < aO2 ce3seg := by linarith [ha.1]
    nlinarith [mul_pos (neg_pos.mpr h1) h2]
  have htoppos : 0 < st.gO2 (1 + 1) := by
    rw [htop]
    linarith [hO2b.1]
  have hnocap2 : ¬ segCapHit (constSol ("O2")) ce3seg.p_total_kpa (aO2 ce3seg)
      (qLiqLMin ce3seg) (o2Pass ce3seg 1 st 1) (st.gO2 (1 + 1)) (st.gN2 (1 + 1)) := by
    unfold segCapHit
    push_neg
    rw [c3_q]
    linarith [hrawneg2, htoppos]
  have hc2 : o2Pass ce3seg 1 st (1 + 1) =
      o2Pass ce3seg 1 st 1 + (0.1344 - o2Pass ce3seg 1 st 1) * aO2 ce3seg := by
    rw [o2Pass_succ ce3seg 1 st 1]
    unfold segDc
    rw [if_neg hnocap2, hraw2]
  have htr1 : o2PassTr ce3seg 1 st 1 =
      (0.1344 - o2Pass ce3seg 1 st 1) * aO2 ce3seg * qLiqLMin ce3seg := by
    rw [o2PassTr_eq]
    unfold segTrAmt
    rw [if_neg hnocap2, hraw2]
  have htr1b : -0.00185 ≤ o2PassTr ce3seg 1 st 1 ∧ o2PassTr ce3seg 1 st 1 ≤ -0.00119 := by
    rw [htr1, c3_q]
    have hd1 : 0.6339 ≤ o2Pass ce3seg 1 st 1 - 0.1344 := by linarith [hc1b.1]
    have hd2 : o2Pass ce3seg 1 st 1 - 0.1344 ≤ 0.79793 := by linarith [hc1b.2]
    constructor
    · have h1 : (o2Pass ce3seg 1 st 1 - 0.1344) * aO2 ce3seg ≤ 0.79793 * 0.23163 :=
        mul_le_mul hd2 ha.2 (by linarith [ha.1]) (by norm_num)
      nlinarith [h1]
    · have h2 : 0.6339 * 0.188 ≤ (o2Pass ce3seg 1 st 1 - 0.1344) * aO2 ce3seg :=
        mul_le_mul hd1 ha.1 (by norm_num) (by linarith [hd1])
      nlinarith [h2]
  exact ⟨hc1, hc1b.1, hc1b.2, hc2, htr1b.1, htr1b.2⟩

set_option maxHeartbeats 1600000 in
/-- One fixed-point iteration of ce3seg from any state with pinned N2
interfaces, the right O2 interface at the inlet and a positive middle O2
interface lands in the concrete invariant c3Inv. -/
theorem c3_step (st : SegState)
    (hpin : ∀ s, st.gN2 s = nN2InletMmolMin ce3seg)
    (htop : st.gO2 (1 + 1) = nO2InletMmolMin ce3seg)
    (hpos : 0 < st.gO2 1) :
    c3Inv (nO2InletMmolMin ce3seg + 0.00119) (segNext ce3seg 1 0 st) := by
  have hpass := c3_pass st (hpin 1) (hpin (1 + 1)) htop hpos
  have hN2b := c3_nN2
  have hO2b := c3_nO2
  have haN2 : aN2 ce3seg = 0 := by
    apply aN2_zero
    unfold klaN2Eff
    rw [if_neg (by simp [ce3seg, exBase])]
    rfl
  have htrN2 : ∀ s, n2PassTr ce3seg 0 st s = 0 := by
    intro s
    unfold n2PassTr liqTransfer
    rw [haN2]
    apply segTrAmt_zero_of_a_zero
    rw [hpin (s + 1)]
    linarith [hN2b.1]
  have hnseg : ce3seg.n_segments = 2 := rfl
  have h11 : (1 + 1 : ℕ) = 2 := rfl
  have htrlb := hpass.2.2.2.2.1
  have htrub := hpass.2.2.2.2.2
  unfold c3Inv segNext
  dsimp only
  refine ⟨?_, ?_, ?_, ?_⟩
  · intro s
    exact gasUpdate_const (by linarith [hN2b.1]) htrN2 ce3seg.n_segments s
  · rw [hnseg, h11]
    exact gasUpdate_top _ _ 2
  · rw [hnseg]
    have hg1 : gasUpdate (nO2InletMmolMin ce3seg) (o2PassTr ce3seg 1 st) 2 1 =
        max 0 (nO2InletMmolMin ce3seg - o2PassTr ce3seg 1 st 1) := rfl
    rw [hg1, max_eq_right (by linarith [hO2b.1, htrub])]
    linarith [htrub]
  · rw [hnseg]
    have hg1 : gasUpdate (nO2InletMmolMin ce3seg) (o2PassTr ce3seg 1 st) 2 1 =
        max 0 (nO2InletMmolMin ce3seg - o2PassTr ce3seg 1 st 1) := rfl
    rw [hg1, max_eq_right (by linarith [hO2b.1, htrub])]
    linarith [htrlb]

set_option maxHeartbeats 3200000 in
/-- C3 counterexample: ce3seg and its lumped twin ce3lum are both valid, yet
with a desorbing O2 inlet (1 mmol/L against an equilibrium of 0.1344) the
segmented outlet O2 concentration strictly exceeds the lumped one: the
desorbed O2 enriches the counterflow gas, raising the local equilibrium the
liquid sees near its outlet, while the claim asserts segmented at most
lumped for every valid input pair. -/
theorem C3_counterexample :
    ValidInputs ce3seg ∧ ValidInputs ce3lum ∧
    (compute_single_pass_steady_outlet ce3lum 1 0).out_o2 <
      (compute_single_pass_steady_outlet ce3seg 1 0).out_o2 := by
  have hvalseg : ValidInputs ce3seg := by
    unfold ValidInputs validation_errors ce3seg exBase
    norm_num
    simp
  have hvallum : ValidInputs ce3lum := by
    unfold ValidInputs validation_errors ce3lum ce3seg exBase
    norm_num
    simp
  refine ⟨hvalseg, hvallum, ?_⟩
  rw [steady_segmented (show ce3seg.gas_liquid_model = ("segmented") from rfl),
      steady_lumped (show ce3lum.gas_liquid_model = ("lumped") from rfl)]
  show lumpedOutO2 ce3lum 1 < segOutO2 ce3seg 1 0
  have hlumeq : lumpedOutO2 ce3lum 1 = lumpedOutO2 ce3seg 1 := rfl
  rw [hlumeq]
  have hO2b := c3_nO2
  have hN2b := c3_nN2
  have ha := c3_a_bounds
  have hstep : ∀ st, c3Inv (nO2InletMmolMin ce3seg + 0.00119) st →
      c3Inv (nO2InletMmolMin ce3seg + 0.00119) (segNext ce3seg 1 0 st) := by
    intro st h
    exact c3_step st h.1 h.2.1 (by linarith [h.2.2.1, hO2b.1])
  have hinit1 : c3Inv (nO2InletMmolMin ce3seg + 0.00119)
      (segNext ce3seg 1 0 (segInit ce3seg)) := by
    apply c3_step
    · intro s
      rfl
    · rfl
    · show 0 < nO2InletMmolMin ce3seg
      linarith [hO2b.1]
  have hn2seg : ce3seg.n_segments = 2 := rfl
  have hnc : ¬ ((49 : ℕ) = 0 ∨ segConverged ce3seg (segInit ce3seg)
      (segNext ce3seg 1 0 (segInit ce3seg))) := by
    push_neg
    refine ⟨by norm_num, ?_⟩
    intro hcon
    have hn1 : (1 : ℕ) ≤ ce3seg.n_segments := by
      rw [hn2seg]
      norm_num
    have h1 := (hcon 1 hn1).1
    have h2 : (segInit ce3seg).gO2 1 = nO2InletMmolMin ce3seg := rfl
    rw [h2] at h1
    have h3 := hinit1.2.2.1
    have h4 := (abs_lt.mp h1).2
    linarith [h3]
  have hloop : segResultStates ce3seg 1 0 =
      segLoop ce3seg 1 0 49 (segNext ce3seg 1 0 (segInit ce3seg)) := by
    unfold segResultStates
    rw [show (50 : ℕ) = 49 + 1 from rfl]
    rw [segLoop]
    split
    · rename_i hcond
      exact absurd hcond hnc
    · rfl
  have hinv : c3Inv (nO2InletMmolMin ce3seg + 0.00119) (segResultStates ce3seg 1 0).1 := by
    rw [hloop]
    exact (segLoop_inv ce3seg 1 0 _ hstep 49 _ hinit1).1
  have hpass := c3_pass (segResultStates ce3seg 1 0).1 (hinv.1 1) (hinv.1 (1 + 1))
    hinv.2.1 (by linarith [hinv.2.2.1, hO2b.1])
  have hy1lb : 0.276 ≤ yLocal ((segResultStates ce3seg 1 0).1.gO2 1)
      ((segResultStates ce3seg 1 0).1.gN2 1) := by
    rw [hinv.1 1]
    have hglb := hinv.2.2.1
    have hgub := hinv.2.2.2
    rw [yLocal_eq (by linarith [hO2b.1]) (by linarith [hN2b.1])
      (by linarith [hO2b.1, hN2b.1])]
    rw [le_div_iff₀ (by linarith [hO2b.1, hN2b.1])]
    nlinarith [hO2b.1, hO2b.2, hN2b.1, hN2b.2]
  have hy1ub : yLocal ((segResultStates ce3seg 1 0).1.gO2 1)
      ((segResultStates ce3seg 1 0).1.gN2 1) ≤ 1 := yLocal_le_one _ _
  set e1 := Real.exp (-(0.073728 * Real.pi)) with he1def
  have he1b := c3_e1_bounds
  have ha_eq : aO2 ce3seg = 1 - e1 := c3_aO2_eq
  have hcstar : cstarO2 ce3seg = 0.1344 := by
    unfold cstarO2 compute_equilibrium_concentrations constSol
    simp only [ce3seg, exBase]
    norm_num
  have hraweq : lumpedRawO2 ce3seg 1 = 0.1344 + 0.8656 * (e1 * e1) := by
    unfold lumpedRawO2 compute_single_pass_outlet_concentration
    rw [hcstar, c3_klaO2, c3_res]
    have harg : -(0.006 : ℝ) * (24.576 * Real.pi) =
        -(0.073728 * Real.pi) + -(0.073728 * Real.pi) := by ring
    rw [harg, Real.exp_add, ← he1def]
    ring
  have hsupb : 0.00211 ≤ o2SupplyRate ce3seg := by
    unfold o2SupplyRate compute_gas_o2_supply_rate_mmol_min
    simp only [ce3seg, exBase]
    norm_num
  have he1sq : e1 * e1 ≤ 0.812 * 0.812 :=
    mul_le_mul he1b.2 he1b.2 (by linarith [he1b.1]) (by norm_num)
  have hnl : ¬ lumpedLimited ce3seg 1 := by
    unfold lumpedLimited
    push_neg
    rw [c3_q, hraweq]
    apply max_le
    · linarith [hsupb]
    · nlinarith [hsupb, he1sq]
  have hlout : lumpedOutO2 ce3seg 1 = 0.1344 + 0.8656 * (e1 * e1) := by
    unfold lumpedOutO2
    rw [if_neg hnl]
    exact hraweq
  have hsegeq : segOutO2 ce3seg 1 0 =
      o2Pass ce3seg 1 (segResultStates ce3seg 1 0).1 (1 + 1) := rfl
  rw [hlout, hsegeq, hpass.2.2.2.1, hpass.1, ha_eq]
  have hkey : 0 < e1 * (1 - e1) *
      (0.64 * yLocal ((segResultStates ce3seg 1 0).1.gO2 1)
        ((segResultStates ce3seg 1 0).1.gN2 1) - 0.1344) := by
    apply mul_pos (mul_pos (by linarith [he1b.1] : (0:ℝ) < e1)
      (by linarith [he1b.2] : (0:ℝ) < 1 - e1))
    nlinarith [hy1lb]
  nlinarith [hkey]

end Carboxy
